import Mathlib

/-!
# Flipper deployment scripts (`src/flipper/*.js`)

A shallow embedding of the four deployment scripts of the repository

* `deploy-debug.js`        (`testNetwork`, `deployToNetwork`, `main`)
* `deploy.js`              (`deployContract`)
* `deploy-local.js`        (`deployContract`)
* `deploy-interactive.js`  (`deployContract`)

Every script is a straight-line `async` function whose only interaction with
the outside is through awaited library calls (ethers RPC calls, `fs`, the
`readline` prompt, `process.exit`).  The outcome of each external call is taken
from a `World`; a run yields the ordered list of observable effects
(`Event`) together with the way the function ended (`Res`).

Console narration that only echoes progress is not traced; console lines that
report an outcome (failures, analysis hints, selection results) are.
-/

namespace Ink

/-! ## JavaScript values used by the scripts -/

/-- A raised JavaScript `Error`: its `message` and its optional `code`. -/
structure JsError where
  message : String
  code : Option String
deriving DecidableEq, Repr

/-- Outcome of an awaited library call: a value, or a raised error. -/
abbrev Outcome (α : Type) := Except JsError α

/-- The `TypeError` raised when a property is read from `undefined`/`null`. -/
def typeError (prop : String) : JsError :=
  ⟨"Cannot read properties of undefined (reading '" ++ prop ++ "')", none⟩

/-- A parsed JSON document. -/
inductive JsonValue where
  | null
  | bool (b : Bool)
  | num (n : Int)
  | str (s : String)
  | arr (xs : List JsonValue)
  | obj (kvs : List (String × JsonValue))

/-- Scalar values stored in the fields of a deployment record. -/
inductive JsVal where
  | str (s : String)
  | num (n : Int)
  | bool (b : Bool)
deriving DecidableEq, Repr

/-- JavaScript `String.prototype.includes` (for the ASCII patterns the scripts
search for, code-unit and code-point substring search coincide). -/
def includes (s pat : String) : Bool :=
  s.toList.tails.any (fun t => pat.toList.isPrefixOf t)

/-- JavaScript truthiness of a possibly absent string: `undefined` and `''`
are falsy, every other string is truthy. -/
def truthy : Option String → Bool
  | none => false
  | some s => s != ""

/-- One hexadecimal digit, lower case, as `Buffer.toString('hex')` prints it. -/
def hexDigit (n : Nat) : Char :=
  if n < 10 then Char.ofNat (48 + n) else Char.ofNat (87 + n)

/-- The value of `buffer.toString('hex')`: two digits per byte. -/
def toHex : List Nat → List Char
  | [] => []
  | b :: bs => hexDigit (b % 256 / 16) :: hexDigit (b % 256 % 16) :: toHex bs

/-- The expression `'0x' + fs.readFileSync(bytecodePath).toString('hex')`. -/
def bytecodeOf (bytes : List Nat) : String :=
  "0x" ++ String.mk (toHex bytes)

/-! ## Effects -/

/-- The fields of a deployment record, in the order of the object literal. -/
abbrev DeploymentInfo := List (String × JsVal)

/-- Observable effects of a run, in the order in which they happen. -/
inductive Event where
  /-- An outcome-reporting console line. -/
  | log (line : String)
  /-- A call of `provider.getBlockNumber()` against the endpoint `rpcUrl`. -/
  | getBlockNumber (rpcUrl : String)
  /-- A call of `provider.getBalance(address)` against the endpoint `rpcUrl`. -/
  | getBalance (rpcUrl : String) (address : String)
  /-- A read through `fs.readFileSync(path)`. -/
  | readFile (path : String)
  /-- A call of `new ethers.ContractFactory(abi, bytecode, wallet)`. -/
  | newFactory (abi : Option JsonValue) (bytecode : String)
  /-- A call of `getDeployTransaction(true)` followed by `provider.estimateGas`. -/
  | estimateGas (rpcUrl : String)
  /-- A call of `contractFactory.deploy(arg, overrides)`. -/
  | deploy (rpcUrl : String) (bytecode : String) (arg : Bool) (gasLimit : Option Nat)
  /-- A call of `contract.waitForDeployment()`. -/
  | waitForDeployment (rpcUrl : String)
  /-- A call of `contract.getAddress()`. -/
  | getAddress (rpcUrl : String)
  /-- A call of `contract.get()`. -/
  | get (rpcUrl : String)
  /-- A call of `contract.flip()`. -/
  | flip (rpcUrl : String)
  /-- A call of `flipTx.wait()`. -/
  | flipWait (rpcUrl : String)
  /-- A call of `fs.writeFileSync(path, JSON.stringify(info, null, 2))`. -/
  | writeFile (path : String) (info : DeploymentInfo)
  /-- A prompt shown through `askQuestion`. -/
  | question (prompt : String)
  /-- A call of `rl.close()`. -/
  | rlClose
  /-- A call of `process.exit(code)`. -/
  | exit (code : Nat)

/-- How an `async` function body ends. -/
inductive Res (α : Type) where
  /-- It returned a value. -/
  | ok (a : α)
  /-- It raised (the promise rejects). -/
  | throw (e : JsError)
  /-- It called `process.exit(code)`: the process is gone, no handler runs. -/
  | exit (code : Nat)

/-- A computation with its effects: the events it produced and how it ended. -/
structure Eff (α : Type) where
  trace : List Event
  res : Res α

namespace Eff

/-- Sequencing: the continuation runs only after a normal return. -/
def bind {α β : Type} (x : Eff α) (f : α → Eff β) : Eff β :=
  match x.res with
  | .ok a => ⟨x.trace ++ (f a).trace, (f a).res⟩
  | .throw e => ⟨x.trace, .throw e⟩
  | .exit c => ⟨x.trace, .exit c⟩

instance : Monad Eff where
  pure a := ⟨[], .ok a⟩
  bind := Eff.bind

/-- Record one event. -/
def emit (e : Event) : Eff Unit := ⟨[e], .ok ()⟩

/-- An outcome-reporting console line. -/
def log (line : String) : Eff Unit := emit (.log line)

/-- A library call without observable effect (it may still raise). -/
def lift {α : Type} : Outcome α → Eff α
  | .ok a => ⟨[], .ok a⟩
  | .error e => ⟨[], .throw e⟩

/-- An awaited external call: the event, then the outcome supplied by the world. -/
def call {α : Type} (e : Event) (o : Outcome α) : Eff α :=
  match o with
  | .ok a => ⟨[e], .ok a⟩
  | .error err => ⟨[e], .throw err⟩

/-- The statement `throw e`. -/
def raise {α : Type} (e : JsError) : Eff α := ⟨[], .throw e⟩

/-- The call `process.exit(code)`. -/
def exitWith {α : Type} (code : Nat) : Eff α := ⟨[.exit code], .exit code⟩

/-- The statement `try { body } catch (error) { handler }`. -/
def tryCatch {α : Type} (body : Eff α) (handler : JsError → Eff α) : Eff α :=
  match body.res with
  | .ok a => ⟨body.trace, .ok a⟩
  | .throw e => ⟨body.trace ++ (handler e).trace, (handler e).res⟩
  | .exit c => ⟨body.trace, .exit c⟩

/-- The statement `try { body } finally { fin }` for a `fin` that cannot raise:
it runs after a return and after a raise, not after `process.exit`. -/
def tryFinally {α : Type} (body : Eff α) (fin : List Event) : Eff α :=
  match body.res with
  | .ok a => ⟨body.trace ++ fin, .ok a⟩
  | .throw e => ⟨body.trace ++ fin, .throw e⟩
  | .exit c => ⟨body.trace, .exit c⟩

end Eff

open Eff

/-! ## The outside world -/

/-- Outcomes of the RPC calls against one endpoint during a run. -/
structure Chain where
  /-- Outcome of `provider.getBlockNumber()`. -/
  getBlockNumber : Outcome Nat
  /-- Outcome of `provider.getBalance(address)`, in wei. -/
  getBalance : String → Outcome Int
  /-- Outcome of `getDeployTransaction(true).then(tx => provider.estimateGas(tx))`. -/
  estimateGas : Outcome Nat
  /-- Outcome of `contractFactory.deploy(arg, overrides)`; the value is the hash of the
  deployment transaction. -/
  deploy : String → Bool → Outcome String
  /-- Outcome of `contract.waitForDeployment()`. -/
  waitForDeployment : Outcome Unit
  /-- Outcome of `contract.getAddress()`. -/
  getAddress : Outcome String
  /-- The `n`-th call (from 0) of `contract.get()`. -/
  get : Nat → Outcome Bool
  /-- Outcome of `contract.flip()`. -/
  flip : Outcome Unit
  /-- Outcome of `flipTx.wait()`. -/
  flipWait : Outcome Unit

/-- Everything a run reads from outside the script. -/
structure World where
  /-- The chain behind each RPC URL. -/
  chain : String → Chain
  /-- Outcome of `new ethers.Wallet(key, provider)`: the wallet's address, or a raise for
  a malformed key. -/
  newWallet : String → Outcome String
  /-- The files on disk: `none` when the path does not exist. -/
  files : String → Option (List Nat)
  /-- Outcome of `JSON.parse` of a file read as `'utf8'`. -/
  jsonParse : List Nat → Outcome JsonValue
  /-- Outcome of `new ethers.ContractFactory(abi, bytecode, wallet)`. -/
  newFactory : Option JsonValue → String → Outcome Unit
  /-- Outcome of `fs.writeFileSync(path, ...)`. -/
  writeFile : String → Outcome Unit
  /-- The value of `new Date().toISOString()` when the record is built. -/
  now : String
  /-- The variable `process.env.PRIVATE_KEY`. -/
  envPrivateKey : Option String
  /-- The line typed at each prompt, by prompt text. -/
  answer : String → String
  /-- The listing step `fs.existsSync('target/ink')` then `fs.readdirSync`:
  `none` when the directory does not exist, else the outcome of the listing. -/
  listDir : Option (Outcome (List String))

/-- The call `fs.existsSync(path)`. -/
def existsSync (w : World) (path : String) : Bool :=
  (w.files path).isSome

/-- The call `fs.readFileSync(path)`: raises `ENOENT` for a missing file. -/
def readFileSync (w : World) (path : String) : Eff (List Nat) :=
  call (.readFile path)
    (match w.files path with
     | some bytes => .ok bytes
     | none => .error ⟨"ENOENT: no such file or directory, open '" ++ path ++ "'", some "ENOENT"⟩)

/-- The call `askQuestion(prompt)`. -/
def askQuestion (w : World) (prompt : String) : Eff String :=
  ⟨[.question prompt], .ok (w.answer prompt)⟩

/-! ## `deploy-debug.js` -/

/-- An entry of `NETWORKS` in `deploy-debug.js`. -/
structure NetworkProfile where
  name : String
  rpcUrl : String
  chainId : Nat
  faucet : String
deriving DecidableEq, Repr

/-- The table `NETWORKS` of `deploy-debug.js`, in insertion order. -/
def NETWORKS : List (String × NetworkProfile) :=
  [("polkadot-hub",
      { name := "Polkadot Hub Testnet"
        rpcUrl := "https://testnet-passet-hub-eth-rpc.polkadot.io"
        chainId := 420420422
        faucet := "https://faucet.polkadot.io/?parachain=1111" }),
   ("local",
      { name := "Local Development"
        rpcUrl := "http://127.0.0.1:8545"
        chainId := 1337
        faucet := "Built-in test accounts" })]

/-- The object returned by `testNetwork`; `provider` and `wallet` are absent
from some of the returned literals. -/
structure NetworkInfo where
  network : NetworkProfile
  /-- The provider, identified by its RPC URL. -/
  provider : Option String
  /-- The wallet, identified by its address. -/
  wallet : Option String
  canDeploy : Bool
deriving DecidableEq, Repr

/-- The function `testNetwork(networkKey, privateKey)` of `deploy-debug.js`.
The lookup `NETWORKS[networkKey]` is the lookup in the table; a key without an
entry yields `undefined`, and reading `network.name` (line 37, before the
`try`) then raises.  Keys that name an inherited property of the object (such
as `constructor`) are outside this model; `main` passes the keys of the table
only.  `new ethers.JsonRpcProvider(url)` opens no connection and
is not an event. -/
def testNetwork (w : World) (networkKey : String) (privateKey : Option String) :
    Eff NetworkInfo :=
  match NETWORKS.lookup networkKey with
  | none => raise (typeError "name")
  | some network =>
    Eff.tryCatch
      (do
        let provider := network.rpcUrl
        let _blockNumber ← call (.getBlockNumber network.rpcUrl)
          (w.chain network.rpcUrl).getBlockNumber
        if truthy privateKey then
          let wallet ← lift (w.newWallet (privateKey.getD ""))
          let balance ← call (.getBalance network.rpcUrl wallet)
            ((w.chain network.rpcUrl).getBalance wallet)
          if balance > 0 then
            pure { network, provider := some provider, wallet := some wallet, canDeploy := true }
          else do
            log ("⚠️  No balance - get tokens from: " ++ network.faucet)
            pure { network, provider := some provider, wallet := some wallet, canDeploy := false }
        else
          pure { network, provider := some provider, wallet := none, canDeploy := false })
      (fun error => do
        log ("❌ Connection failed: " ++ error.message)
        pure { network, provider := none, wallet := none, canDeploy := false })

/-- The selector `deployableNetworks.filter(n => n.canDeploy)` argument. -/
def NetworkInfo.deployable (n : String × NetworkInfo) : Bool := n.2.canDeploy

/-- The conventional artifact paths (relative to the script directory). -/
def abiPath : String := "target/ink/flipper.abi"

/-- The ink! metadata file looked up by `deploy-interactive.js`. -/
def metadataPath : String := "target/ink/flipper.json"

/-- The compiled PolkaVM binary. -/
def bytecodePath : String := "target/ink/flipper.polkavm"

/-- The diagnostic categories of the specification's error taxonomy; a script's
`catch` block selects one by the branch of its `if`/`else if` chain that runs
(`Unknown` when none does). -/
inductive ErrorCategory where
  | ExecutionReverted
  | InsufficientFunds
  | NonceConflict
  | NetworkUnreachable
  | ArtifactError
  | Unknown
deriving DecidableEq, Repr

/-- The branch taken by the `if`/`else if` chain in the `catch` block of
`deployToNetwork` (`deploy-debug.js`). -/
def classifyDebug (error : JsError) : ErrorCategory :=
  if includes error.message "execution reverted" then .ExecutionReverted
  else if includes error.message "insufficient funds" then .InsufficientFunds
  else if includes error.message "nonce" then .NonceConflict
  else .Unknown

/-- The console lines printed by each branch of that chain. -/
def hintDebug (network : NetworkProfile) : ErrorCategory → List String
  | .ExecutionReverted =>
      ["💡 Analysis: Contract execution reverted",
       "   - This might be a PolkaVM compatibility issue",
       "   - The network might not support ink! contracts yet"]
  | .InsufficientFunds =>
      ["💡 Analysis: Insufficient funds for gas",
       "   - Get more tokens from: " ++ network.faucet]
  | .NonceConflict => ["💡 Analysis: Nonce issue - try again"]
  | _ => []

/-- Several console lines in a row. -/
def logs (lines : List String) : Eff Unit := ⟨lines.map Event.log, .ok ()⟩

/-- The two object literals returned by `deployToNetwork`:
`{ success: true, contractAddress, network }` and `{ success: false, error }`. -/
inductive DeployResult where
  | succeeded (contractAddress : String) (network : String)
  | failed (error : String)
deriving DecidableEq, Repr

/-- The field `success` of the returned object. -/
def DeployResult.success : DeployResult → Bool
  | .succeeded _ _ => true
  | .failed _ => false

/-- The field `contractAddress` of the returned object, when it has one. -/
def DeployResult.contractAddress : DeployResult → Option String
  | .succeeded a _ => some a
  | .failed _ => none

/-- The gas-estimate step of `deployToNetwork`: its own `try`/`catch` turns a
raise into a warning. -/
def estimateGasStep (w : World) (network : NetworkProfile) : Eff Unit :=
  Eff.tryCatch
    (do
      let _gasEstimate ← call (.estimateGas network.rpcUrl) (w.chain network.rpcUrl).estimateGas
      pure ())
    (fun gasError => log ("⚠️  Gas estimation failed: " ++ gasError.message))

/-- The `try` block of `deployToNetwork` (`deploy-debug.js`, lines 74-129). -/
def deployToNetworkTry (w : World) (network : NetworkProfile) : Eff DeployResult :=
  let c := w.chain network.rpcUrl
  do
    let abiText ← readFileSync w abiPath
    let abi ← lift (w.jsonParse abiText)
    let bytes ← readFileSync w bytecodePath
    let bytecode := bytecodeOf bytes
    call (.newFactory (some abi) bytecode) (w.newFactory (some abi) bytecode)
    estimateGasStep w network
    let _txHash ← call (.deploy network.rpcUrl bytecode true (some 5000000))
      (c.deploy bytecode true)
    call (.waitForDeployment network.rpcUrl) c.waitForDeployment
    let contractAddress ← call (.getAddress network.rpcUrl) c.getAddress
    let _currentValue ← call (.get network.rpcUrl) (c.get 0)
    call (.flip network.rpcUrl) c.flip
    call (.flipWait network.rpcUrl) c.flipWait
    let _newValue ← call (.get network.rpcUrl) (c.get 1)
    pure (DeployResult.succeeded contractAddress network.name)

/-- The `catch` block of `deployToNetwork` (`deploy-debug.js`, lines 131-147). -/
def deployToNetworkCatch (network : NetworkProfile) (error : JsError) : Eff DeployResult := do
  log ("❌ Deployment failed: " ++ error.message)
  logs (hintDebug network (classifyDebug error))
  pure (DeployResult.failed error.message)

/-- The function `deployToNetwork(networkInfo)` of `deploy-debug.js`. -/
def deployToNetwork (w : World) (networkInfo : NetworkInfo) : Eff DeployResult :=
  let network := networkInfo.network
  Eff.tryCatch (deployToNetworkTry w network) (deployToNetworkCatch network)

/-- The characters `parseInt` skips at the start (`StrWhiteSpaceChar`). -/
def isStrWhiteSpace (c : Char) : Bool :=
  c.toNat ∈ [0x09, 0x0A, 0x0B, 0x0C, 0x0D, 0x20, 0xA0, 0x1680, 0x2028, 0x2029,
    0x202F, 0x205F, 0x3000, 0xFEFF] || (0x2000 ≤ c.toNat && c.toNat ≤ 0x200A)

/-- The value of a character as a digit of any radix up to 36. -/
def digitValue (c : Char) : Option Nat :=
  if 48 ≤ c.toNat ∧ c.toNat ≤ 57 then some (c.toNat - 48)
  else if 97 ≤ c.toNat ∧ c.toNat ≤ 122 then some (c.toNat - 87)
  else if 65 ≤ c.toNat ∧ c.toNat ≤ 90 then some (c.toNat - 55)
  else none

/-- Is `c` a digit of radix `r`? -/
def isRadixDigit (r : Nat) (c : Char) : Bool :=
  match digitValue c with
  | some d => d < r
  | none => false

/-- The JavaScript function `parseInt(s)` with no radix argument; `none` is
`NaN`.  The integer is exact (JavaScript rounds it to a double, which changes
only values beyond `2^53`). -/
def parseInt (s : String) : Option Int :=
  let t := s.toList.dropWhile isStrWhiteSpace
  let signed : Bool × List Char :=
    match t with
    | '-' :: r => (true, r)
    | '+' :: r => (false, r)
    | _ => (false, t)
  let based : Nat × List Char :=
    match signed.2 with
    | '0' :: 'x' :: r => (16, r)
    | '0' :: 'X' :: r => (16, r)
    | r => (10, r)
  let digits := based.2.takeWhile (isRadixDigit based.1)
  if digits.isEmpty then none
  else
    let n : Nat := digits.foldl (fun acc c => acc * based.1 + (digitValue c).getD 0) 0
    some (if signed.1 then - (n : Int) else (n : Int))

/-- The expression `array[index]` for a number `index` (`NaN` included):
`undefined` unless the index is an integer within bounds. -/
def elementAt {α : Type} (array : List α) (index : Option Int) : Option α :=
  match index with
  | none => none
  | some i => if 0 ≤ i then array.get? i.toNat else none

/-- The loop `for (const [key, network] of Object.entries(NETWORKS))` of
`main`, over the entries still to visit. -/
def testNetworks (w : World) (privateKey : String) :
    List (String × NetworkProfile) → Eff (List (String × NetworkInfo))
  | [] => pure []
  | (key, _) :: rest => do
    let result ← testNetwork w key (some privateKey)
    let results ← testNetworks w privateKey rest
    pure ((key, result) :: results)

/-- The end of `main` (lines 193-208): the record is saved when
`result.success` holds. -/
def saveDeployment (w : World) : DeployResult → Eff Unit
  | .succeeded contractAddress network =>
    let deploymentInfo : DeploymentInfo :=
      [("network", .str network),
       ("contractAddress", .str contractAddress),
       ("deploymentTime", .str w.now)]
    call (.writeFile "deployment-debug.json" deploymentInfo)
      (w.writeFile "deployment-debug.json")
  | .failed _ => pure ()

/-- The part of `main` that follows the selection (lines 186-208):
`undefined` is reported as an invalid selection, a network is deployed to. -/
def deploySelected (w : World) : Option (String × NetworkInfo) → Eff Unit
  | none => log "❌ Invalid selection"
  | some selectedNetwork => do
    let result ← deployToNetwork w selectedNetwork.2
    saveDeployment w result

/-- The `try` block of `main` (`deploy-debug.js`, lines 152-208). -/
def mainTry (w : World) : Eff Unit := do
  let privateKey ← askQuestion w "Enter your private key (or press Enter to skip): "
  let networkResults ← testNetworks w privateKey NETWORKS
  let deployableNetworks := networkResults.filter NetworkInfo.deployable
  if deployableNetworks.length = 0 then
    log "\n❌ No networks available for deployment"
  else do
    let choice ← askQuestion w
      ("\nSelect network (1-" ++ toString deployableNetworks.length ++ "): ")
    let selectedNetwork := elementAt deployableNetworks ((parseInt choice).map (· - 1))
    deploySelected w selectedNetwork

/-- The function `main()` of `deploy-debug.js`. -/
def main (w : World) : Eff Unit :=
  Eff.tryFinally
    (Eff.tryCatch (mainTry w) (fun error => log ("❌ Error: " ++ error.message)))
    [.rlClose]

/-! ## Helpers shared by the single-network scripts -/

/-- The constant `NETWORK_CONFIG` of a single-network script. -/
structure NetworkConfig where
  name : String
  rpcUrl : String
  chainId : Nat
deriving DecidableEq, Repr

/-- Property access `value.name` on a parsed JSON value or `undefined`
(`none`): reading from `undefined` or `null` raises a `TypeError`, an object
yields its property or `undefined`, other values have no such property. -/
def getProp (value : Option JsonValue) (name : String) : Outcome (Option JsonValue) :=
  match value with
  | none => .error (typeError name)
  | some .null => .error (typeError name)
  | some (.obj kvs) => .ok (kvs.lookup name)
  | some _ => .ok none

/-- JavaScript `toLowerCase`, on the ASCII letters.  The scripts only compare
the result with the literals `'y'` and `'false'`, and no character outside
ASCII lower-cases to a letter of these literals. -/
def toLowerCase (s : String) : String :=
  String.mk (s.toList.map Char.toLower)

/-- JavaScript `String.prototype.startsWith`. -/
def startsWith (s pre : String) : Bool :=
  pre.toList.isPrefixOf s.toList

/-! ## `deploy.js` -/

namespace Deploy

/-- The constant `NETWORK_CONFIG` of `deploy.js`. -/
def NETWORK_CONFIG : NetworkConfig :=
  { name := "Polkadot Hub Testnet"
    rpcUrl := "https://testnet-passet-hub-eth-rpc.polkadot.io"
    chainId := 420420422 }

/-- The function `deployContract()` of `deploy.js`. -/
def deployContract (w : World) : Eff Unit :=
  let url := NETWORK_CONFIG.rpcUrl
  let c := w.chain url
  Eff.tryCatch
    (do
      let PRIVATE_KEY := w.envPrivateKey
      (if !truthy PRIVATE_KEY then do
        log "❌ Please set PRIVATE_KEY environment variable"
        exitWith 1
      else pure ())
      let wallet ← lift (w.newWallet (PRIVATE_KEY.getD ""))
      let balance ← call (.getBalance url wallet) (c.getBalance wallet)
      (if balance = 0 then do
        log "❌ No balance! Get test tokens from: https://faucet.polkadot.io/?parachain=1111"
        exitWith 1
      else pure ())
      (if !existsSync w abiPath || !existsSync w bytecodePath then do
        log "❌ Contract files not found. Make sure you built the contract first."
        exitWith 1
      else pure ())
      let abiText ← readFileSync w abiPath
      let abi_ ← lift (w.jsonParse abiText)
      let bytes ← readFileSync w bytecodePath
      let bytecode := bytecodeOf bytes
      let output ← lift (getProp (some abi_) "output")
      let abi ← lift (getProp output "abi")
      call (.newFactory abi bytecode) (w.newFactory abi bytecode)
      let _txHash ← call (.deploy url bytecode true none) (c.deploy bytecode true)
      call (.waitForDeployment url) c.waitForDeployment
      let contractAddress ← call (.getAddress url) c.getAddress
      let _initialValue ← call (.get url) (c.get 0)
      call (.flip url) c.flip
      call (.flipWait url) c.flipWait
      let _newValue ← call (.get url) (c.get 1)
      let deploymentInfo : DeploymentInfo :=
        [("network", .str NETWORK_CONFIG.name),
         ("chainId", .num NETWORK_CONFIG.chainId),
         ("contractAddress", .str contractAddress),
         ("deployerAddress", .str wallet),
         ("deploymentTime", .str w.now)]
      call (.writeFile "deployment.json" deploymentInfo) (w.writeFile "deployment.json"))
    (fun error => do
      log ("❌ Deployment failed: " ++ error.message)
      exitWith 1)

end Deploy

/-! ## `deploy-local.js` -/

namespace DeployLocal

/-- The constant `NETWORK_CONFIG` of `deploy-local.js`. -/
def NETWORK_CONFIG : NetworkConfig :=
  { name := "Local Development"
    rpcUrl := "http://127.0.0.1:8545"
    chainId := 1337 }

/-- The test key written in `deploy-local.js`. -/
def testKey : String :=
  "0xac0974bec39a17e36ba4a6b4d238ff944bacb478cbed5efcae784d7bf4f2ff80"

/-- The branch taken by the `if`/`else if` chain in the `catch` block of
`deployContract` (`deploy-local.js`). -/
def classifyLocal (error : JsError) : ErrorCategory :=
  if error.code = some "NETWORK_ERROR" then .NetworkUnreachable
  else if includes error.message "execution reverted" then .ExecutionReverted
  else .Unknown

/-- The console lines printed by each branch of that chain. -/
def hintLocal : ErrorCategory → List String
  | .NetworkUnreachable =>
      ["💡 Make sure you have a local development node running",
       "   Try: npx hardhat node"]
  | .ExecutionReverted =>
      ["💡 This might be a PolkaVM compatibility issue",
       "   The local network might not support PolkaVM contracts"]
  | _ => []

/-- The `try` block of `deployContract` (`deploy-local.js`, lines 14-105). -/
def deployContractTry (w : World) : Eff Unit :=
  let url := NETWORK_CONFIG.rpcUrl
  let c := w.chain url
  do
    let wallet ← lift (w.newWallet testKey)
    let balanceRead ← Eff.tryCatch
      (do
        let _balance ← call (.getBalance url wallet) (c.getBalance wallet)
        pure true)
      (fun _ => do
        log "⚠️  Could not check balance - network might not be running"
        pure false)
    if !balanceRead then
      pure ()
    else if !existsSync w abiPath || !existsSync w bytecodePath then
      log "❌ Contract files not found"
    else do
      let abiText ← readFileSync w abiPath
      let abi ← lift (w.jsonParse abiText)
      let bytes ← readFileSync w bytecodePath
      let bytecode := bytecodeOf bytes
      call (.newFactory (some abi) bytecode) (w.newFactory (some abi) bytecode)
      let txHash ← call (.deploy url bytecode true none) (c.deploy bytecode true)
      call (.waitForDeployment url) c.waitForDeployment
      let contractAddress ← call (.getAddress url) c.getAddress
      let _currentValue ← call (.get url) (c.get 0)
      call (.flip url) c.flip
      call (.flipWait url) c.flipWait
      let _newValue ← call (.get url) (c.get 1)
      let deploymentInfo : DeploymentInfo :=
        [("network", .str NETWORK_CONFIG.name),
         ("chainId", .num NETWORK_CONFIG.chainId),
         ("contractAddress", .str contractAddress),
         ("deployerAddress", .str wallet),
         ("deploymentTime", .str w.now),
         ("transactionHash", .str txHash)]
      call (.writeFile "deployment-local.json" deploymentInfo)
        (w.writeFile "deployment-local.json")

/-- The `catch` block of `deployContract` (`deploy-local.js`, lines 107-117). -/
def deployContractCatch (error : JsError) : Eff Unit := do
  log ("\n❌ Deployment failed: " ++ error.message)
  logs (hintLocal (classifyLocal error))

/-- The function `deployContract()` of `deploy-local.js`. -/
def deployContract (w : World) : Eff Unit :=
  Eff.tryCatch (deployContractTry w) deployContractCatch

end DeployLocal

/-! ## `deploy-interactive.js` -/

namespace DeployInteractive

/-- The constant `NETWORK_CONFIG` of `deploy-interactive.js`. -/
def NETWORK_CONFIG : NetworkConfig :=
  { name := "Polkadot Hub Testnet"
    rpcUrl := "https://testnet-passet-hub-eth-rpc.polkadot.io"
    chainId := 420420422 }

/-- The array literal assigned to `abi` when only the ink! metadata exists. -/
def syntheticAbi : JsonValue :=
  .arr
    [.obj [("type", .str "constructor"),
           ("inputs", .arr [.obj [("name", .str "init_value"), ("type", .str "bool")]]),
           ("stateMutability", .str "nonpayable")],
     .obj [("type", .str "function"),
           ("name", .str "flip"),
           ("inputs", .arr []),
           ("outputs", .arr []),
           ("stateMutability", .str "nonpayable")],
     .obj [("type", .str "function"),
           ("name", .str "get"),
           ("inputs", .arr []),
           ("outputs", .arr [.obj [("name", .str ""), ("type", .str "bool")]]),
           ("stateMutability", .str "view")]]

/-- The listing printed when no description file is found (lines 100-103):
`fs.existsSync('target/ink')`, then `fs.readdirSync('target/ink')`. -/
def listArtifactDir (w : World) : Eff Unit :=
  match w.listDir with
  | none => pure ()
  | some listing => do
    let _files ← lift listing
    pure ()

/-- The interface-description part of the loader (lines 69-107): the Solidity
ABI file when it exists, else the synthetic description when the metadata file
exists, else the process exits with status 1. -/
def loadAbi (w : World) : Eff JsonValue :=
  if existsSync w abiPath then do
    let abiText ← readFileSync w abiPath
    lift (w.jsonParse abiText)
  else if existsSync w metadataPath then
    pure syntheticAbi
  else do
    log "❌ Contract files not found in target/ink/"
    listArtifactDir w
    exitWith 1

/-- The binary part of the loader (lines 109-114). -/
def loadBytecode (w : World) : Eff String := do
  (if !existsSync w bytecodePath then do
    log ("❌ Contract bytecode not found: " ++ bytecodePath)
    exitWith 1
  else pure ())
  let bytes ← readFileSync w bytecodePath
  pure (bytecodeOf bytes)

/-- The artifact loader of `deploy-interactive.js` (lines 63-114): the
interface description, then the binary. -/
def loadArtifact (w : World) : Eff (JsonValue × String) := do
  let abi ← loadAbi w
  let bytecode ← loadBytecode w
  pure (abi, bytecode)

/-- The expression `initialValue.toLowerCase() === 'false' ? false : true`. -/
def parseInitValue (initialValue : String) : Bool :=
  if toLowerCase initialValue = "false" then false else true

/-- The function `deployContract()` of `deploy-interactive.js`. -/
def deployContract (w : World) : Eff Unit :=
  let url := NETWORK_CONFIG.rpcUrl
  let c := w.chain url
  Eff.tryFinally
    (Eff.tryCatch
      (do
        let privateKey ← askQuestion w "Private Key: "
        (if !truthy (some privateKey) || !startsWith privateKey "0x" then do
          log "❌ Invalid private key format. Must start with 0x"
          exitWith 1
        else pure ())
        let wallet ← lift (w.newWallet privateKey)
        let balance ← call (.getBalance url wallet) (c.getBalance wallet)
        (if balance = 0 then do
          log "❌ No balance! Get test tokens from: https://faucet.polkadot.io/?parachain=1111"
          let proceed ← askQuestion w "Do you want to continue anyway? (y/N): "
          (if toLowerCase proceed ≠ "y" then exitWith 1 else pure ())
        else pure ())
        let artifact ← loadArtifact w
        let abi := artifact.1
        let bytecode := artifact.2
        let initialValue ← askQuestion w
          "Enter initial boolean value (true/false) [default: true]: "
        let initValue := parseInitValue initialValue
        let confirm ← askQuestion w "\n🚀 Ready to deploy? (y/N): "
        (if toLowerCase confirm ≠ "y" then do
          log "❌ Deployment cancelled"
          exitWith 0
        else pure ())
        call (.newFactory (some abi) bytecode) (w.newFactory (some abi) bytecode)
        let txHash ← call (.deploy url bytecode initValue none) (c.deploy bytecode initValue)
        call (.waitForDeployment url) c.waitForDeployment
        let contractAddress ← call (.getAddress url) c.getAddress
        let _currentValue ← call (.get url) (c.get 0)
        let testFlip ← askQuestion w "Test flip function? (y/N): "
        let reads ←
          (if toLowerCase testFlip = "y" then do
            call (.flip url) c.flip
            call (.flipWait url) c.flipWait
            let _newValue ← call (.get url) (c.get 1)
            pure 2
          else
            pure 1)
        let _summaryValue ← call (.get url) (c.get reads)
        let deploymentInfo : DeploymentInfo :=
          [("network", .str NETWORK_CONFIG.name),
           ("chainId", .num NETWORK_CONFIG.chainId),
           ("contractAddress", .str contractAddress),
           ("deployerAddress", .str wallet),
           ("initialValue", .bool initValue),
           ("deploymentTime", .str w.now),
           ("transactionHash", .str txHash)]
        call (.writeFile "deployment.json" deploymentInfo) (w.writeFile "deployment.json"))
      (fun error => do
        log ("\n❌ Deployment failed: " ++ error.message)
        (if error.code = some "INSUFFICIENT_FUNDS" then
          log "💡 Get test tokens from: https://faucet.polkadot.io/?parachain=1111"
        else pure ())))
    [.rlClose]

end DeployInteractive

/-! ## Observations on runs -/

/-- Is the event a write of a deployment record? -/
def Event.isWrite : Event → Bool
  | .writeFile _ _ => true
  | _ => false

/-- Is the event the submission of a deployment transaction? -/
def Event.isDeploy : Event → Bool
  | .deploy _ _ _ _ => true
  | _ => false

/-- Is the event the submission of a deployment with the given bytecode? -/
def Event.isDeployOf (bytecode : String) : Event → Bool
  | .deploy _ b _ _ => b == bytecode
  | _ => false

/-- Is the event an RPC call (anything sent to an endpoint)? -/
def Event.isRpc : Event → Bool
  | .getBlockNumber _ => true
  | .getBalance _ _ => true
  | .estimateGas _ => true
  | .deploy _ _ _ _ => true
  | .waitForDeployment _ => true
  | .getAddress _ => true
  | .get _ => true
  | .flip _ => true
  | .flipWait _ => true
  | _ => false

/-- The number of record writes in a trace. -/
def writes (trace : List Event) : Nat := trace.countP Event.isWrite

/-- A computation writes at most `n` records. -/
def WritesLe {α : Type} (n : Nat) (x : Eff α) : Prop := writes x.trace ≤ n

/-- The world `w` with the outcome of the gas estimate replaced by `g` on
every endpoint. -/
def World.withGasEstimate (w : World) (g : Outcome Nat) : World :=
  { w with chain := fun url => { w.chain url with estimateGas := g } }

/-- Submission of the deployment of `bytecode` with argument `arg` and its
confirmation both completed on chain `c`. -/
def Confirmed (c : Chain) (bytecode : String) (arg : Bool) : Prop :=
  (∃ txHash, c.deploy bytecode arg = .ok txHash) ∧ c.waitForDeployment = .ok ()

/-- The verification steps that follow confirmation all completed on chain
`c`: the address query, the first `get()`, `flip()`, its confirmation and the
second `get()`. -/
def Verified (c : Chain) : Prop :=
  (∃ address, c.getAddress = .ok address) ∧ (∃ v1, c.get 0 = .ok v1) ∧
    c.flip = .ok () ∧ c.flipWait = .ok () ∧ (∃ v2, c.get 1 = .ok v2)

/-- The verification steps of `deploy-interactive.js` all completed on chain
`c`, given the answer `testFlip` to its flip prompt: the address query and the
first `get()`; then `flip()`, its confirmation and a `get()` only when the
answer lower-cases to `y`; then the `get()` of the summary. -/
def VerifiedInteractive (c : Chain) (testFlip : String) : Prop :=
  (∃ address, c.getAddress = .ok address) ∧ (∃ v1, c.get 0 = .ok v1) ∧
    ((toLowerCase testFlip = "y" ∧ c.flip = .ok () ∧ c.flipWait = .ok () ∧
        (∃ v2, c.get 1 = .ok v2) ∧ ∃ v3, c.get 2 = .ok v3) ∨
      (toLowerCase testFlip ≠ "y" ∧ ∃ v2, c.get 1 = .ok v2))

/-- The artifact files load for `deploy-debug.js` and the contract factory is
built from them: `bytecode` is what the factory receives. -/
def ArtifactLoaded (w : World) (bytecode : String) : Prop :=
  ∃ abiText abi bytes, w.files abiPath = some abiText ∧ w.jsonParse abiText = .ok abi ∧
    w.files bytecodePath = some bytes ∧ bytecode = bytecodeOf bytes ∧
    w.newFactory (some abi) bytecode = .ok ()

/-! ### Reading an interface description -/

/-- The elements of a JSON array (none for other values). -/
def JsonValue.items : JsonValue → List JsonValue
  | .arr xs => xs
  | _ => []

/-- The property `name` of a JSON object. -/
def JsonValue.field (v : JsonValue) (name : String) : Option JsonValue :=
  match v with
  | .obj kvs => kvs.lookup name
  | _ => none

/-- The string held by a property, if it is a string. -/
def JsonValue.stringField (v : JsonValue) (name : String) : Option String :=
  match v.field name with
  | some (.str s) => some s
  | _ => none

/-- The entries of an interface description whose `type` is `ty`. -/
def abiEntries (abi : JsonValue) (ty : String) : List JsonValue :=
  abi.items.filter (fun entry => entry.stringField "type" == some ty)

/-- The `type` of each input parameter of an entry. -/
def inputTypes (entry : JsonValue) : List (Option String) :=
  match entry.field "inputs" with
  | some inputs => inputs.items.map (fun input => input.stringField "type")
  | none => []

/-! ### Sample worlds -/

/-- A chain on which every call completes; the contract behaves as a flipper
deployed with `true`: successive reads alternate. -/
def sampleChain : Chain :=
  { getBlockNumber := .ok 100
    getBalance := fun _ => .ok 5
    estimateGas := .ok 21000
    deploy := fun _ _ => .ok "0xfeed"
    waitForDeployment := .ok ()
    getAddress := .ok "0xC0DE"
    get := fun n => .ok (n % 2 == 0)
    flip := .ok ()
    flipWait := .ok () }

/-- A world in which every step of every script completes and the user
answers `y` (and `1`) at the prompts. -/
def sampleWorld : World :=
  { chain := fun _ => sampleChain
    newWallet := fun _ => .ok "0xA11CE"
    files := fun path =>
      if path = abiPath then some [123, 125]
      else if path = bytecodePath then some [80, 86, 77]
      else none
    jsonParse := fun _ => .ok (.obj [("output", .obj [("abi", .arr [])])])
    newFactory := fun _ _ => .ok ()
    writeFile := fun _ => .ok ()
    now := "2025-01-01T00:00:00.000Z"
    envPrivateKey := some "0xabc"
    answer := fun prompt =>
      if prompt = "Enter your private key (or press Enter to skip): " then "0xabc"
      else if prompt = "Private Key: " then "0xabc"
      else if prompt = "\nSelect network (1-2): " then "1"
      else if prompt = "Enter initial boolean value (true/false) [default: true]: " then "true"
      else "y"
    listDir := none }

/-- The probe result for the local network in `sampleWorld`. -/
def sampleInfo : NetworkInfo :=
  { network :=
      { name := "Local Development"
        rpcUrl := "http://127.0.0.1:8545"
        chainId := 1337
        faucet := "Built-in test accounts" }
    provider := some "http://127.0.0.1:8545"
    wallet := some "0xA11CE"
    canDeploy := true }

/-- A world whose contract never changes: every `get()` returns `true`. -/
def stuckWorld : World :=
  { sampleWorld with chain := fun _ => { sampleChain with get := fun _ => .ok true } }

/-- A world in which the deployment confirms and the calls of the deployed
contract revert. -/
def revertingWorld : World :=
  { sampleWorld with
    chain := fun _ =>
      { sampleChain with get := fun _ => .error ⟨"execution reverted", some "CALL_EXCEPTION"⟩ } }

/-- A world in which `flip()` would revert and the user declines the flip
test of `deploy-interactive.js`. -/
def declinedFlipWorld : World :=
  { sampleWorld with
    chain := fun _ =>
      { sampleChain with flip := .error ⟨"execution reverted", some "CALL_EXCEPTION"⟩ }
    answer := fun prompt =>
      if prompt = "Test flip function? (y/N): " then "n" else sampleWorld.answer prompt }

/-- A world whose artifact directory holds the binary only: no Solidity ABI
file and no ink! metadata file. -/
def binaryOnlyWorld : World :=
  { sampleWorld with
    files := fun path => if path = bytecodePath then some [80, 86, 77] else none }

/-- A world whose artifact directory holds the ink! metadata and the binary
but no Solidity ABI file. -/
def metadataWorld : World :=
  { sampleWorld with
    files := fun path =>
      if path = metadataPath then some [123, 125]
      else if path = bytecodePath then some [80, 86, 77]
      else none }

/-- A world whose artifact directory holds the Solidity ABI file and no
binary. -/
def missingBinaryWorld : World :=
  { sampleWorld with
    files := fun path => if path = abiPath then some [123, 125] else none }

/-- A world whose binary file exists and is empty. -/
def emptyBinaryWorld : World :=
  { sampleWorld with
    files := fun path =>
      if path = abiPath then some [123, 125]
      else if path = bytecodePath then some []
      else none }

/-- A failure carrying the code `NETWORK_ERROR` whose message mentions a
revert. -/
def networkRevertError : JsError :=
  ⟨"could not coalesce error: execution reverted", some "NETWORK_ERROR"⟩

/-- A world in which submitting the deployment raises `networkRevertError`. -/
def networkRevertWorld : World :=
  { sampleWorld with
    chain := fun _ => { sampleChain with deploy := fun _ _ => .error networkRevertError } }

/-! ### Further observations (probing, selection, exit status) -/

/-- Every event of the computation satisfies `p`. -/
def TraceAll {α : Type} (p : Event → Bool) (x : Eff α) : Prop :=
  ∀ ev ∈ x.trace, p ev = true

/-- The endpoint an RPC event is sent to. -/
def Event.rpcUrl : Event → Option String
  | .getBlockNumber url => some url
  | .getBalance url _ => some url
  | .estimateGas url => some url
  | .deploy url _ _ _ => some url
  | .waitForDeployment url => some url
  | .getAddress url => some url
  | .get url => some url
  | .flip url => some url
  | .flipWait url => some url
  | _ => none

/-- Is the event one of the steps that only `deployToNetwork` performs in
`deploy-debug.js` (artifact reads, factory construction, gas estimate,
submission, confirmation, address query, contract calls)? -/
def Event.isDeployStep : Event → Bool
  | .readFile _ => true
  | .newFactory _ _ => true
  | .estimateGas _ => true
  | .deploy _ _ _ _ => true
  | .waitForDeployment _ => true
  | .getAddress _ => true
  | .get _ => true
  | .flip _ => true
  | .flipWait _ => true
  | _ => false

/-- Events a probe may produce: the height query, the balance query and
console lines. -/
def Event.isProbe : Event → Bool
  | .getBlockNumber _ => true
  | .getBalance _ _ => true
  | .log _ => true
  | _ => false

/-- The event is no RPC call against `url`, the height query apart. -/
def Event.onlyHeightQueryOn (url : String) (ev : Event) : Bool :=
  match ev with
  | .getBlockNumber _ => true
  | _ => ev.rpcUrl != some url

/-- A world in which the account holds nothing on any endpoint. -/
def zeroBalanceWorld : World :=
  { sampleWorld with chain := fun _ => { sampleChain with getBalance := fun _ => .ok 0 } }

/-- A world in which no endpoint answers the height query. -/
def unreachableWorld : World :=
  { sampleWorld with
    chain := fun _ =>
      { sampleChain with getBlockNumber := .error ⟨"connect ECONNREFUSED", some "NETWORK_ERROR"⟩ } }

/-- The records written during a run: file name and fields, in order. -/
def recordsOf (trace : List Event) : List (String × DeploymentInfo) :=
  trace.filterMap (fun ev =>
    match ev with
    | .writeFile path info => some (path, info)
    | _ => none)

/-- Every `process.exit(code)` that ends the computation has a code
satisfying `p`. -/
def ExitCodes {α : Type} (p : Nat → Prop) (x : Eff α) : Prop :=
  ∀ code, x.res = .exit code → p code

/-- Is the event a call of `process.exit`? -/
def Event.isExit : Event → Bool
  | .exit _ => true
  | _ => false

/-- The event is not a call of `process.exit`. -/
def Event.notExit (ev : Event) : Bool := !ev.isExit

/-- A world in which no signing key is supplied: the variable is unset and
the user presses Enter at the key prompts. -/
def noKeyWorld : World :=
  { sampleWorld with
    envPrivateKey := none
    answer := fun prompt =>
      if prompt = "Enter your private key (or press Enter to skip): " then ""
      else if prompt = "Private Key: " then ""
      else sampleWorld.answer prompt }

/-- The event is no RPC call, or it is sent to `url`. -/
def Event.targets (url : String) (ev : Event) : Bool :=
  match ev.rpcUrl with
  | none => true
  | some u => u == url

/-- The prompt of `main` that offers `n` deployable networks. -/
def selectPrompt (n : Nat) : String :=
  "\nSelect network (1-" ++ toString n ++ "): "

/-- The probe results of `main` in `sampleWorld`: both networks, in the order
of `NETWORKS`, both deployable. -/
def sampleDeployable : List (String × NetworkInfo) :=
  [("polkadot-hub",
      { network :=
          { name := "Polkadot Hub Testnet"
            rpcUrl := "https://testnet-passet-hub-eth-rpc.polkadot.io"
            chainId := 420420422
            faucet := "https://faucet.polkadot.io/?parachain=1111" }
        provider := some "https://testnet-passet-hub-eth-rpc.polkadot.io"
        wallet := some "0xA11CE"
        canDeploy := true }),
   ("local", sampleInfo)]

/-- A world in which the user types `False` at the initial-value prompt of
`deploy-interactive.js`. -/
def falseAnswerWorld : World :=
  { sampleWorld with
    answer := fun prompt =>
      if prompt = "Enter initial boolean value (true/false) [default: true]: " then "False"
      else sampleWorld.answer prompt }

/-! # Theorems -/

/-! ## Reasoning principles for `Eff` -/

theorem bind_eq {α β : Type} (x : Eff α) (f : α → Eff β) : (x >>= f) = Eff.bind x f := rfl

theorem pure_eq {α : Type} (a : α) : (pure a : Eff α) = ⟨[], .ok a⟩ := rfl

theorem bind_res_ok {α β : Type} (x : Eff α) (f : α → Eff β) (b : β) :
    (Eff.bind x f).res = .ok b ↔ ∃ a, x.res = .ok a ∧ (f a).res = .ok b := by
  unfold Eff.bind
  cases h : x.res <;> simp

theorem bind_res_throw {α β : Type} (x : Eff α) (f : α → Eff β) (e : JsError) :
    (Eff.bind x f).res = .throw e ↔
      x.res = .throw e ∨ ∃ a, x.res = .ok a ∧ (f a).res = .throw e := by
  unfold Eff.bind
  cases h : x.res <;> simp

theorem bind_res_exit {α β : Type} (x : Eff α) (f : α → Eff β) (c : Nat) :
    (Eff.bind x f).res = .exit c ↔
      x.res = .exit c ∨ ∃ a, x.res = .ok a ∧ (f a).res = .exit c := by
  unfold Eff.bind
  cases h : x.res <;> simp

theorem mem_bind_trace {α β : Type} (x : Eff α) (f : α → Eff β) (ev : Event) :
    ev ∈ (Eff.bind x f).trace ↔
      ev ∈ x.trace ∨ ∃ a, x.res = .ok a ∧ ev ∈ (f a).trace := by
  unfold Eff.bind
  cases h : x.res <;> simp

theorem call_res_ok {α : Type} (e : Event) (o : Outcome α) (a : α) :
    (call e o).res = .ok a ↔ o = .ok a := by
  cases o <;> simp [call]

theorem call_res_throw {α : Type} (e : Event) (o : Outcome α) (err : JsError) :
    (call e o).res = .throw err ↔ o = .error err := by
  cases o <;> simp [call]

theorem call_res_exit {α : Type} (e : Event) (o : Outcome α) (c : Nat) :
    (call e o).res = .exit c ↔ False := by
  cases o <;> simp [call]

theorem call_trace {α : Type} (e : Event) (o : Outcome α) : (call e o).trace = [e] := by
  cases o <;> rfl

theorem lift_res_ok {α : Type} (o : Outcome α) (a : α) :
    (lift o).res = .ok a ↔ o = .ok a := by
  cases o <;> simp [lift]

theorem lift_res_throw {α : Type} (o : Outcome α) (err : JsError) :
    (lift o).res = .throw err ↔ o = .error err := by
  cases o <;> simp [lift]

theorem lift_res_exit {α : Type} (o : Outcome α) (c : Nat) :
    (lift o).res = .exit c ↔ False := by
  cases o <;> simp [lift]

theorem lift_trace {α : Type} (o : Outcome α) : (lift o).trace = [] := by
  cases o <;> rfl

theorem readFileSync_res_ok (w : World) (path : String) (bytes : List Nat) :
    (readFileSync w path).res = .ok bytes ↔ w.files path = some bytes := by
  unfold readFileSync
  cases h : w.files path <;> simp [call]

theorem readFileSync_res_exit (w : World) (path : String) (c : Nat) :
    (readFileSync w path).res = .exit c ↔ False := by
  unfold readFileSync
  cases h : w.files path <;> simp [call]

theorem readFileSync_trace (w : World) (path : String) :
    (readFileSync w path).trace = [.readFile path] := by
  unfold readFileSync
  exact call_trace _ _

theorem tryCatch_res_ok {α : Type} (body : Eff α) (handler : JsError → Eff α) (a : α) :
    (Eff.tryCatch body handler).res = .ok a ↔
      body.res = .ok a ∨ ∃ e, body.res = .throw e ∧ (handler e).res = .ok a := by
  unfold Eff.tryCatch
  cases h : body.res <;> simp

theorem tryCatch_res_throw {α : Type} (body : Eff α) (handler : JsError → Eff α)
    (err : JsError) :
    (Eff.tryCatch body handler).res = .throw err ↔
      ∃ e, body.res = .throw e ∧ (handler e).res = .throw err := by
  unfold Eff.tryCatch
  cases h : body.res <;> simp

theorem tryCatch_res_exit {α : Type} (body : Eff α) (handler : JsError → Eff α) (c : Nat) :
    (Eff.tryCatch body handler).res = .exit c ↔
      body.res = .exit c ∨ ∃ e, body.res = .throw e ∧ (handler e).res = .exit c := by
  unfold Eff.tryCatch
  cases h : body.res <;> simp

theorem mem_tryCatch_trace {α : Type} (body : Eff α) (handler : JsError → Eff α)
    (ev : Event) :
    ev ∈ (Eff.tryCatch body handler).trace ↔
      ev ∈ body.trace ∨ ∃ e, body.res = .throw e ∧ ev ∈ (handler e).trace := by
  unfold Eff.tryCatch
  cases h : body.res <;> simp

theorem mem_tryFinally_trace {α : Type} (body : Eff α) (fin : List Event) (ev : Event) :
    ev ∈ (Eff.tryFinally body fin).trace ↔
      ev ∈ body.trace ∨ ((∀ c, body.res ≠ .exit c) ∧ ev ∈ fin) := by
  unfold Eff.tryFinally
  cases h : body.res <;> simp

theorem tryFinally_res {α : Type} (body : Eff α) (fin : List Event) :
    (Eff.tryFinally body fin).res = body.res := by
  unfold Eff.tryFinally
  cases h : body.res <;> simp

theorem ite_res_eq {α : Type} {c : Prop} [Decidable c] (x y : Eff α) (r : Res α) :
    (if c then x else y).res = r ↔ (c ∧ x.res = r) ∨ (¬c ∧ y.res = r) := by
  by_cases h : c <;> simp [h]

theorem mem_ite_trace {α : Type} {c : Prop} [Decidable c] (x y : Eff α) (ev : Event) :
    ev ∈ (if c then x else y).trace ↔ (c ∧ ev ∈ x.trace) ∨ (¬c ∧ ev ∈ y.trace) := by
  by_cases h : c <;> simp [h]

theorem pure_res {α : Type} (a : α) : (pure a : Eff α).res = .ok a := rfl

theorem pure_trace {α : Type} (a : α) : (pure a : Eff α).trace = [] := rfl

theorem log_res (line : String) : (log line).res = .ok () := rfl

theorem log_trace (line : String) : (log line).trace = [.log line] := rfl

theorem exitWith_res {α : Type} (code : Nat) : (exitWith code : Eff α).res = .exit code := rfl

theorem exitWith_trace {α : Type} (code : Nat) :
    (exitWith code : Eff α).trace = [.exit code] := rfl

theorem askQuestion_res (w : World) (prompt : String) :
    (askQuestion w prompt).res = .ok (w.answer prompt) := rfl

theorem askQuestion_trace (w : World) (prompt : String) :
    (askQuestion w prompt).trace = [.question prompt] := rfl

theorem logs_res (lines : List String) : (logs lines).res = .ok () := rfl

theorem logs_trace (lines : List String) : (logs lines).trace = lines.map Event.log := rfl


theorem readFileSync_res_throw (w : World) (path : String) (err : JsError) :
    (readFileSync w path).res = .throw err ↔
      w.files path = none ∧
        err = ⟨"ENOENT: no such file or directory, open '" ++ path ++ "'", some "ENOENT"⟩ := by
  unfold readFileSync
  cases h : w.files path <;> simp [call, eq_comm]

/-! ## `testNetwork` -/

/-- C1. Funding rule of `testNetwork`: for a network of `NETWORKS` and a
supplied (truthy) signing key, when the height query succeeds and the balance
query returns `b`, the function returns a result whose `canDeploy` flag is
`true` exactly when `b > 0` (so it is `false` when `b = 0`). -/
theorem testNetwork_canDeploy_iff_positive_balance (w : World) (networkKey : String)
    (network : NetworkProfile) (privateKey : Option String) (height : Nat)
    (wallet : String) (b : Int)
    (hnet : NETWORKS.lookup networkKey = some network)
    (hkey : truthy privateKey = true)
    (hheight : (w.chain network.rpcUrl).getBlockNumber = .ok height)
    (hwallet : w.newWallet (privateKey.getD "") = .ok wallet)
    (hbalance : (w.chain network.rpcUrl).getBalance wallet = .ok b) :
    ∃ r, (testNetwork w networkKey privateKey).res = .ok r ∧
      r.canDeploy = decide (0 < b) ∧ (b = 0 → r.canDeploy = false) := by
  unfold testNetwork
  simp only [hnet, hkey, hheight, hwallet, hbalance, bind_eq, pure_eq, Eff.bind, Eff.call,
    Eff.lift, Eff.tryCatch, if_true]
  by_cases hb : 0 < b
  · have hb0 : b ≠ 0 := by omega
    simp [hb, hb0, pure_eq]
  · simp [hb, pure_eq, bind_eq, Eff.bind, Eff.log, Eff.emit]

/-- Witness for C1: the local network of `sampleWorld`, key `0xabc`, balance 5. -/
theorem testNetwork_canDeploy_iff_positive_balance_witness :
    ∃ r, (testNetwork sampleWorld "local" (some "0xabc")).res = .ok r ∧
      r.canDeploy = decide (0 < (5 : Int)) ∧ ((5 : Int) = 0 → r.canDeploy = false) :=
  testNetwork_canDeploy_iff_positive_balance sampleWorld "local"
    { name := "Local Development", rpcUrl := "http://127.0.0.1:8545", chainId := 1337,
      faucet := "Built-in test accounts" }
    (some "0xabc") 100 "0xA11CE" 5 (by decide) (by decide) rfl rfl rfl

/-- A key without an entry in `NETWORKS` makes `testNetwork` raise before its
`try` block: the table lookup yields `undefined` and `network.name` is read. -/
theorem testNetwork_unknown_key_raises (w : World) (networkKey : String)
    (privateKey : Option String) (hnet : NETWORKS.lookup networkKey = none) :
    (testNetwork w networkKey privateKey).res = .throw (typeError "name") := by
  unfold testNetwork
  simp [hnet, Eff.raise]

/-- For a key of `NETWORKS`, `testNetwork` returns an object for that network. -/
theorem testNetwork_returns_of_lookup (w : World) (networkKey : String)
    (network : NetworkProfile) (privateKey : Option String)
    (hnet : NETWORKS.lookup networkKey = some network) :
    ∃ r : NetworkInfo, (testNetwork w networkKey privateKey).res = .ok r ∧
      r.network = network := by
  unfold testNetwork
  simp only [hnet]
  cases h1 : (w.chain network.rpcUrl).getBlockNumber <;>
    cases h2 : truthy privateKey <;>
    cases h3 : w.newWallet (privateKey.getD "") <;>
    simp [h1, h2, h3, bind_eq, pure_eq, Eff.bind, Eff.call, Eff.lift, Eff.tryCatch, Eff.log,
      Eff.emit]
  rename_i height wallet
  cases h4 : (w.chain network.rpcUrl).getBalance wallet <;> simp [h4]
  rename_i b
  by_cases hb : 0 < b <;> simp [hb]

/-- C4. The probe never raises: for every key of `NETWORKS`, every signing-key
input (absent, empty, malformed or valid) and every outcome of the height and
balance queries, `testNetwork` returns a result object (which carries the
`canDeploy` flag); it neither raises nor exits. -/
theorem testNetwork_always_returns (w : World) (networkKey : String)
    (network : NetworkProfile) (privateKey : Option String)
    (hnet : NETWORKS.lookup networkKey = some network) :
    ∃ r : NetworkInfo, (testNetwork w networkKey privateKey).res = .ok r ∧
      r.network = network ∧ (r.canDeploy = true ∨ r.canDeploy = false) := by
  obtain ⟨r, hr, hn⟩ := testNetwork_returns_of_lookup w networkKey network privateKey hnet
  exact ⟨r, hr, hn, by cases r.canDeploy <;> simp⟩

/-- Witness for C4: a malformed key against an unreachable endpoint. -/
theorem testNetwork_always_returns_witness :
    ∃ r : NetworkInfo,
      (testNetwork
        { sampleWorld with
          chain := fun _ => { sampleChain with getBlockNumber := .error ⟨"timeout", none⟩ }
          newWallet := fun _ => .error ⟨"invalid private key", some "INVALID_ARGUMENT"⟩ }
        "polkadot-hub" (some "not-a-key")).res = .ok r ∧
      r.network = { name := "Polkadot Hub Testnet",
                    rpcUrl := "https://testnet-passet-hub-eth-rpc.polkadot.io",
                    chainId := 420420422,
                    faucet := "https://faucet.polkadot.io/?parachain=1111" } ∧
      (r.canDeploy = true ∨ r.canDeploy = false) :=
  testNetwork_always_returns _ "polkadot-hub" _ (some "not-a-key") (by decide)

/-! ## `deployToNetwork` -/

theorem estimateGasStep_res (w : World) (network : NetworkProfile) :
    (estimateGasStep w network).res = .ok () := by
  unfold estimateGasStep
  cases h : (w.chain network.rpcUrl).estimateGas <;>
    simp [h, bind_eq, pure_eq, Eff.bind, Eff.call, Eff.tryCatch, Eff.log, Eff.emit]

theorem deployToNetwork_succeeded_iff (w : World) (info : NetworkInfo) (address name : String) :
    (deployToNetwork w info).res = .ok (.succeeded address name) ↔
      name = info.network.name ∧
      (w.chain info.network.rpcUrl).getAddress = .ok address ∧
      ∃ bytecode, ArtifactLoaded w bytecode ∧
        Confirmed (w.chain info.network.rpcUrl) bytecode true ∧
        Verified (w.chain info.network.rpcUrl) := by
  unfold deployToNetwork deployToNetworkTry deployToNetworkCatch ArtifactLoaded Confirmed Verified
  simp only [bind_eq, bind_res_ok, call_res_ok, lift_res_ok, readFileSync_res_ok,
    tryCatch_res_ok, pure_res, log_res, logs_res, estimateGasStep_res, Res.ok.injEq,
    DeployResult.succeeded.injEq, reduceCtorEq, exists_const, and_false, exists_false, or_false,
    true_and]
  constructor
  · rintro ⟨abiText, h1, abi, h2, bytes, h3, u1, h4, tx, h5, u2, h6, a, h7, v1, h8, u3, h9, u4,
      h10, v2, h11, rfl, rfl⟩
    exact ⟨rfl, h7, _, ⟨abiText, abi, bytes, h1, h2, h3, rfl, h4⟩, ⟨⟨tx, h5⟩, h6⟩,
      ⟨_, h7⟩, ⟨v1, h8⟩, h9, h10, ⟨v2, h11⟩⟩
  · rintro ⟨rfl, h7, _, ⟨abiText, abi, bytes, h1, h2, h3, rfl, h4⟩, ⟨⟨tx, h5⟩, h6⟩,
      ⟨_, _⟩, ⟨v1, h8⟩, h9, h10, ⟨v2, h11⟩⟩
    exact ⟨abiText, h1, abi, h2, bytes, h3, (), h4, tx, h5, (), h6, address, h7, v1, h8, (), h9,
      (), h10, v2, h11, rfl, rfl⟩

/-- In `deployToNetwork` nothing calls `process.exit`. -/
theorem deployToNetwork_res_ne_exit (w : World) (info : NetworkInfo) (code : Nat) :
    (deployToNetwork w info).res ≠ .exit code := by
  unfold deployToNetwork deployToNetworkTry deployToNetworkCatch
  simp only [ne_eq, bind_eq, tryCatch_res_exit, bind_res_exit, bind_res_ok, call_res_exit,
    lift_res_exit, readFileSync_res_exit, pure_res, log_res, logs_res, estimateGasStep_res,
    reduceCtorEq, and_false, exists_false, or_false, false_or, not_false_eq_true, exists_const]

/-- In `deployToNetwork` every raise is caught: the function returns an object. -/
theorem deployToNetwork_res_ne_throw (w : World) (info : NetworkInfo) (e : JsError) :
    (deployToNetwork w info).res ≠ .throw e := by
  unfold deployToNetwork deployToNetworkTry deployToNetworkCatch
  simp only [ne_eq, bind_eq, tryCatch_res_throw, bind_res_throw, bind_res_ok, pure_res, log_res,
    logs_res, reduceCtorEq, and_false, exists_false, or_false, false_or, not_false_eq_true,
    exists_const]

/-- The function `deployToNetwork` always returns one of its two object shapes. -/
theorem deployToNetwork_returns (w : World) (info : NetworkInfo) :
    ∃ r, (deployToNetwork w info).res = .ok r := by
  cases h : (deployToNetwork w info).res with
  | ok r => exact ⟨r, rfl⟩
  | throw e => exact absurd h (deployToNetwork_res_ne_throw w info e)
  | exit c => exact absurd h (deployToNetwork_res_ne_exit w info c)

/-- Counterexample to C2 as stated: in `stuckWorld` both reads return `true`
(the value did not change), and `deployToNetwork` still reports success. -/
theorem deployToNetwork_success_with_equal_reads :
    (stuckWorld.chain sampleInfo.network.rpcUrl).get 0 = .ok true ∧
    (stuckWorld.chain sampleInfo.network.rpcUrl).get 1 = .ok true ∧
    (deployToNetwork stuckWorld sampleInfo).res =
      .ok (.succeeded "0xC0DE" "Local Development") ∧
    (DeployResult.succeeded "0xC0DE" "Local Development").success = true :=
  ⟨rfl, rfl, rfl, rfl⟩

/-- C2 (amended). `deployToNetwork` always returns a result, and it reports
success exactly when the artifact loads, the deployment is submitted and
confirmed, and the address query, the first `get()`, `flip()`, its confirmation
and the second `get()` all complete without raising.  The two values read are
not compared: any pair of reads, equal or different, is reported as success. -/
theorem deployToNetwork_success_iff_steps_complete (w : World) (info : NetworkInfo) :
    (∃ r, (deployToNetwork w info).res = .ok r) ∧
    ((∃ r, (deployToNetwork w info).res = .ok r ∧ r.success = true) ↔
      ∃ bytecode, ArtifactLoaded w bytecode ∧
        Confirmed (w.chain info.network.rpcUrl) bytecode true ∧
        Verified (w.chain info.network.rpcUrl)) := by
  refine ⟨deployToNetwork_returns w info, ?_⟩
  constructor
  · rintro ⟨r, hr, hs⟩
    cases r with
    | succeeded address name => exact ((deployToNetwork_succeeded_iff w info address name).1 hr).2.2
    | failed msg => simp [DeployResult.success] at hs
  · rintro ⟨bytecode, hl, hc, hv⟩
    obtain ⟨address, ha⟩ := hv.1
    exact ⟨.succeeded address info.network.name,
      (deployToNetwork_succeeded_iff w info address _).2 ⟨rfl, ha, bytecode, hl, hc, hv⟩, rfl⟩

/-- Counterexample to C8 as stated: in `revertingWorld` the deployment is
submitted and confirmed and the address query completes, yet the result of
`deployToNetwork` carries no `contractAddress` (the first `get()` reverts). -/
theorem deployToNetwork_confirmed_without_address :
    Confirmed (revertingWorld.chain sampleInfo.network.rpcUrl) "0x50564d" true ∧
    ((deployToNetwork revertingWorld sampleInfo).trace.any
      (fun ev => match ev with
        | .getAddress _ => true
        | _ => false)) = true ∧
    (deployToNetwork revertingWorld sampleInfo).res = .ok (.failed "execution reverted") ∧
    (DeployResult.failed "execution reverted").contractAddress = none :=
  ⟨⟨⟨"0xfeed", rfl⟩, rfl⟩, by decide, rfl, rfl⟩

/-- C8 (amended). The result of `deployToNetwork` carries the address `a`
exactly when the whole attempt succeeded: the artifact loaded, the deployment
was submitted and confirmed, the address query returned `a`, and both reads
and the flip completed.  So an address is reported only for a confirmed
deployment, and a confirmed deployment whose later steps raise reports none. -/
theorem deployToNetwork_address_iff_attempt_succeeded (w : World) (info : NetworkInfo)
    (a : String) :
    (∃ r, (deployToNetwork w info).res = .ok r ∧ r.contractAddress = some a) ↔
      ((w.chain info.network.rpcUrl).getAddress = .ok a ∧
        ∃ bytecode, ArtifactLoaded w bytecode ∧
          Confirmed (w.chain info.network.rpcUrl) bytecode true ∧
          Verified (w.chain info.network.rpcUrl)) := by
  constructor
  · rintro ⟨r, hr, ha⟩
    cases r with
    | succeeded address name =>
      simp only [DeployResult.contractAddress, Option.some.injEq] at ha
      subst ha
      exact ((deployToNetwork_succeeded_iff w info address name).1 hr).2
    | failed msg => simp [DeployResult.contractAddress] at ha
  · rintro ⟨ha, h⟩
    exact ⟨.succeeded a info.network.name,
      (deployToNetwork_succeeded_iff w info a _).2 ⟨rfl, ha, h⟩, rfl⟩

theorem res_eq_of_ok_iff {α : Type} (x y : Eff α)
    (hx : ∃ r, x.res = .ok r) (h : ∀ r, x.res = .ok r → y.res = .ok r) : x.res = y.res := by
  obtain ⟨r, hr⟩ := hx
  rw [hr, h r hr]

/-- The result of `deployToNetwork` does not depend on the gas estimate. -/
theorem deployToNetwork_res_withGasEstimate (w : World) (info : NetworkInfo) (g : Outcome Nat) :
    (deployToNetwork (w.withGasEstimate g) info).res = (deployToNetwork w info).res := by
  apply res_eq_of_ok_iff _ _ (deployToNetwork_returns _ info)
  intro r
  unfold deployToNetwork deployToNetworkTry deployToNetworkCatch
  simp only [bind_eq, bind_res_ok, bind_res_throw, call_res_ok, call_res_throw, lift_res_ok,
    lift_res_throw, readFileSync_res_ok, readFileSync_res_throw,
    tryCatch_res_ok, pure_res, log_res, logs_res, estimateGasStep_res, Res.ok.injEq,
    reduceCtorEq, exists_const, and_false, exists_false, or_false, false_or,
    true_and, World.withGasEstimate, existsSync, readFileSync]
  exact id


/-- Once the artifact is loaded and the factory built, `deployToNetwork`
submits the deployment. -/
theorem deploy_mem_trace_of_artifactLoaded (w : World) (info : NetworkInfo) (bytecode : String)
    (h : ArtifactLoaded w bytecode) :
    Event.deploy info.network.rpcUrl bytecode true (some 5000000) ∈
      (deployToNetwork w info).trace := by
  obtain ⟨abiText, abi, bytes, h1, h2, h3, rfl, h4⟩ := h
  unfold deployToNetwork deployToNetworkTry deployToNetworkCatch
  simp only [bind_eq, mem_bind_trace, mem_tryCatch_trace, bind_res_ok, call_res_ok, lift_res_ok,
    readFileSync_res_ok, call_trace, lift_trace, readFileSync_trace, estimateGasStep_res,
    h1, h2, h3, h4, Option.some.injEq, Except.ok.injEq, exists_eq_left', List.mem_singleton,
    reduceCtorEq, false_or, List.not_mem_nil, exists_const, true_and, Res.ok.injEq, true_or,
    or_true]

/-- C7. Gas estimation is non-fatal in `deployToNetwork`: whatever the
gas-estimate step yields (a value or a raise), the returned result is the one
obtained with any other gas outcome (in particular with a successful
estimate), and once the artifact is loaded the deployment transaction is
submitted. -/
theorem deployToNetwork_gas_estimate_non_fatal (w : World) (info : NetworkInfo)
    (g g' : Outcome Nat) :
    (deployToNetwork (w.withGasEstimate g) info).res =
      (deployToNetwork (w.withGasEstimate g') info).res ∧
    ∀ bytecode, ArtifactLoaded w bytecode →
      Event.deploy info.network.rpcUrl bytecode true (some 5000000) ∈
        (deployToNetwork (w.withGasEstimate g) info).trace := by
  constructor
  · rw [deployToNetwork_res_withGasEstimate, deployToNetwork_res_withGasEstimate]
  · intro bytecode h
    exact deploy_mem_trace_of_artifactLoaded _ info bytecode h

/-- Witness for C7: in `sampleWorld` with a failing gas estimate the artifact
loads and the deployment of its bytecode is submitted. -/
theorem deployToNetwork_gas_estimate_non_fatal_witness :
    ArtifactLoaded sampleWorld "0x50564d" ∧
    Event.deploy sampleInfo.network.rpcUrl "0x50564d" true (some 5000000) ∈
      (deployToNetwork
        (sampleWorld.withGasEstimate (.error ⟨"estimateGas not supported", none⟩))
        sampleInfo).trace :=
  have loaded : ArtifactLoaded sampleWorld "0x50564d" :=
    ⟨[123, 125], .obj [("output", .obj [("abi", .arr [])])], [80, 86, 77], rfl, rfl, rfl,
      by decide, rfl⟩
  ⟨loaded,
    (deployToNetwork_gas_estimate_non_fatal sampleWorld sampleInfo
      (.error ⟨"estimateGas not supported", none⟩) (.ok 21000)).2 "0x50564d" loaded⟩

/-! ## Error classification -/

/-- The `try` block of `deploy-local.js` never calls `process.exit`. -/
theorem deployLocalTry_res_ne_exit (w : World) (code : Nat) :
    (DeployLocal.deployContractTry w).res ≠ .exit code := by
  unfold DeployLocal.deployContractTry
  simp only [ne_eq, bind_eq, tryCatch_res_exit, tryCatch_res_ok, bind_res_exit, bind_res_ok,
    call_res_exit, call_res_ok, ite_res_eq,
    lift_res_exit, readFileSync_res_exit, pure_res, log_res, logs_res,
    reduceCtorEq, and_false, exists_false, or_false, false_or, not_false_eq_true, exists_const]

/-- The script `deploy-local.js` always runs to a normal end: every raise is
caught and reported, and nothing calls `process.exit`. -/
theorem deployLocal_res (w : World) :
    (DeployLocal.deployContract w).res = .ok () := by
  unfold DeployLocal.deployContract Eff.tryCatch
  cases h : (DeployLocal.deployContractTry w).res with
  | ok r => rfl
  | throw e => simp [DeployLocal.deployContractCatch, bind_eq, Eff.bind, log, emit, logs]
  | exit c => exact absurd h (deployLocalTry_res_ne_exit w c)

/-- C5. Error classification is total and closed: for every raised failure
the `if`/`else if` chain of `deploy-debug.js` and that of `deploy-local.js`
select one of the six categories, the selection is `Unknown` exactly when no
pattern of the chain matches, and the `catch` blocks themselves complete
normally (they report and return; they never raise). -/
theorem error_classification_total_and_closed (w : World) (network : NetworkProfile)
    (error : JsError) :
    (classifyDebug error ∈ [ErrorCategory.ExecutionReverted, .InsufficientFunds,
        .NonceConflict, .NetworkUnreachable, .ArtifactError, .Unknown] ∧
      DeployLocal.classifyLocal error ∈ [ErrorCategory.ExecutionReverted, .InsufficientFunds,
        .NonceConflict, .NetworkUnreachable, .ArtifactError, .Unknown]) ∧
    (classifyDebug error = .Unknown ↔
      (includes error.message "execution reverted" = false ∧
        includes error.message "insufficient funds" = false ∧
        includes error.message "nonce" = false)) ∧
    (DeployLocal.classifyLocal error = .Unknown ↔
      (error.code ≠ some "NETWORK_ERROR" ∧
        includes error.message "execution reverted" = false)) ∧
    (deployToNetworkCatch network error).res = .ok (.failed error.message) ∧
    (DeployLocal.deployContractCatch error).res = .ok () ∧
    (∃ r, (deployToNetwork w ⟨network, none, none, true⟩).res = .ok r) ∧
    (DeployLocal.deployContract w).res = .ok () := by
  refine ⟨⟨?_, ?_⟩, ?_, ?_, ?_, ?_, deployToNetwork_returns w _, deployLocal_res w⟩
  · cases h : classifyDebug error <;> simp
  · cases h : DeployLocal.classifyLocal error <;> simp
  · unfold classifyDebug
    cases includes error.message "execution reverted" <;>
      cases includes error.message "insufficient funds" <;>
      cases includes error.message "nonce" <;> simp
  · unfold DeployLocal.classifyLocal
    by_cases hc : error.code = some "NETWORK_ERROR" <;>
      cases includes error.message "execution reverted" <;> simp [hc]
  · simp [deployToNetworkCatch, bind_eq, pure_eq, Eff.bind, log, emit, logs]
  · simp [DeployLocal.deployContractCatch, bind_eq, Eff.bind, log, emit, logs]

/-- Counterexample to C6 as stated: a failure whose message contains
`execution reverted` and whose code is `NETWORK_ERROR` is sent by the chain of
`deploy-local.js` to its network branch; the hint printed by the script then
does not mention PolkaVM. -/
theorem classifyLocal_network_code_wins_over_revert :
    includes networkRevertError.message "execution reverted" = true ∧
    DeployLocal.classifyLocal networkRevertError = .NetworkUnreachable ∧
    (DeployLocal.deployContractTry networkRevertWorld).res = .throw networkRevertError ∧
    ((DeployLocal.deployContract networkRevertWorld).trace.any
      (fun ev => match ev with
        | .log line => includes line "PolkaVM"
        | _ => false)) = false := by
  refine ⟨by decide, by decide, rfl, by decide⟩

/-- C6 (amended). For every failure whose message contains
`execution reverted`: the chain of `deploy-debug.js` selects the revert branch
whatever else the message or the code hold, and when `deployToNetwork` fails
with it the hint naming a possible PolkaVM compatibility issue is printed; the
chain of `deploy-local.js` does the same provided the failure's code is not
`NETWORK_ERROR` (that code is tested first). -/
theorem revert_classification_hints_polkavm (w : World) (info : NetworkInfo) (error : JsError)
    (hmsg : includes error.message "execution reverted" = true) :
    (classifyDebug error = .ExecutionReverted ∧
      includes "   - This might be a PolkaVM compatibility issue" "PolkaVM" = true ∧
      ((deployToNetworkTry w info.network).res = .throw error →
        Event.log "   - This might be a PolkaVM compatibility issue" ∈
          (deployToNetwork w info).trace)) ∧
    (error.code ≠ some "NETWORK_ERROR" →
      DeployLocal.classifyLocal error = .ExecutionReverted ∧
      includes "💡 This might be a PolkaVM compatibility issue" "PolkaVM" = true ∧
      ((DeployLocal.deployContractTry w).res = .throw error →
        Event.log "💡 This might be a PolkaVM compatibility issue" ∈
          (DeployLocal.deployContract w).trace)) := by
  have hd : classifyDebug error = .ExecutionReverted := by
    unfold classifyDebug
    simp [hmsg]
  refine ⟨⟨hd, by decide, ?_⟩, ?_⟩
  · intro hthrow
    unfold deployToNetwork
    rw [mem_tryCatch_trace]
    refine Or.inr ⟨error, hthrow, ?_⟩
    simp [deployToNetworkCatch, hd, hintDebug, bind_eq, pure_eq, Eff.bind, log, emit, logs]
  · intro hcode
    have hl : DeployLocal.classifyLocal error = .ExecutionReverted := by
      unfold DeployLocal.classifyLocal
      simp [hmsg, hcode]
    refine ⟨hl, by decide, ?_⟩
    intro hthrow
    unfold DeployLocal.deployContract
    rw [mem_tryCatch_trace]
    refine Or.inr ⟨error, hthrow, ?_⟩
    simp [DeployLocal.deployContractCatch, hl, DeployLocal.hintLocal, bind_eq, Eff.bind, log,
      emit, logs]

/-- Witness for C6: in `revertingWorld` the first `get()` reverts (code
`CALL_EXCEPTION`); both scripts print their PolkaVM hint. -/
theorem revert_classification_hints_polkavm_witness :
    classifyDebug ⟨"execution reverted", some "CALL_EXCEPTION"⟩ = .ExecutionReverted ∧
    Event.log "   - This might be a PolkaVM compatibility issue" ∈
      (deployToNetwork revertingWorld sampleInfo).trace ∧
    DeployLocal.classifyLocal ⟨"execution reverted", some "CALL_EXCEPTION"⟩
      = .ExecutionReverted ∧
    Event.log "💡 This might be a PolkaVM compatibility issue" ∈
      (DeployLocal.deployContract revertingWorld).trace :=
  have h := revert_classification_hints_polkavm revertingWorld sampleInfo
    ⟨"execution reverted", some "CALL_EXCEPTION"⟩ (by decide)
  ⟨h.1.1, h.1.2.2 rfl, (h.2 (by decide)).1, (h.2 (by decide)).2.2 rfl⟩

/-! ## Counting record writes -/

theorem writesLe_bind {α β : Type} {n : Nat} {x : Eff α} {f : α → Eff β}
    (hx : WritesLe 0 x) (hf : ∀ a, WritesLe n (f a)) : WritesLe n (Eff.bind x f) := by
  unfold WritesLe writes at *
  unfold Eff.bind
  cases h : x.res with
  | ok a =>
    have := hf a
    simp only [List.countP_append]
    omega
  | throw e => simp only; omega
  | exit c => simp only; omega

theorem writesLe_tryCatch {α : Type} {n : Nat} {body : Eff α} {handler : JsError → Eff α}
    (hb : WritesLe n body) (hh : ∀ e, WritesLe 0 (handler e)) :
    WritesLe n (Eff.tryCatch body handler) := by
  unfold WritesLe writes at *
  unfold Eff.tryCatch
  cases h : body.res with
  | ok a => simpa using hb
  | throw e =>
    have := hh e
    simp only [List.countP_append]
    omega
  | exit c => simpa using hb

theorem writesLe_tryFinally_rlClose {α : Type} {n : Nat} {body : Eff α}
    (hb : WritesLe n body) : WritesLe n (Eff.tryFinally body [.rlClose]) := by
  unfold WritesLe writes at *
  unfold Eff.tryFinally
  cases h : body.res <;> simpa [List.countP_append, Event.isWrite] using hb

theorem writesLe_ite {α : Type} {n : Nat} {c : Prop} [Decidable c] {x y : Eff α}
    (hx : WritesLe n x) (hy : WritesLe n y) : WritesLe n (if c then x else y) := by
  by_cases h : c <;> simp [h, hx, hy]

theorem writesLe_call {α : Type} {n : Nat} (e : Event) (o : Outcome α)
    (h : e.isWrite = false ∨ 1 ≤ n) : WritesLe n (call e o) := by
  unfold WritesLe writes
  rw [call_trace]
  rcases h with h | h
  · simp [h]
  · exact le_trans (List.countP_le_length _) (by simpa using h)

theorem writesLe_of_trace_nil {α : Type} {n : Nat} {x : Eff α} (h : x.trace = []) :
    WritesLe n x := by
  unfold WritesLe writes
  simp [h]

theorem writesLe_lift {α : Type} {n : Nat} (o : Outcome α) : WritesLe n (lift o) :=
  writesLe_of_trace_nil (lift_trace o)

theorem writesLe_pure {α : Type} {n : Nat} (a : α) : WritesLe n (pure a : Eff α) :=
  writesLe_of_trace_nil rfl

theorem writesLe_log {n : Nat} (line : String) : WritesLe n (log line) := by
  simp [WritesLe, writes, log_trace, Event.isWrite]

theorem writesLe_logs {n : Nat} (lines : List String) : WritesLe n (logs lines) := by
  simp [WritesLe, writes, logs_trace, List.countP_eq_zero.2, Event.isWrite]

theorem writesLe_exitWith {α : Type} {n : Nat} (code : Nat) :
    WritesLe n (exitWith code : Eff α) := by
  simp [WritesLe, writes, exitWith_trace, Event.isWrite]

theorem writesLe_askQuestion {n : Nat} (w : World) (prompt : String) :
    WritesLe n (askQuestion w prompt) := by
  simp [WritesLe, writes, askQuestion_trace, Event.isWrite]

theorem writesLe_readFileSync {n : Nat} (w : World) (path : String) :
    WritesLe n (readFileSync w path) := by
  simp [WritesLe, writes, readFileSync_trace, Event.isWrite]

theorem deployJs_writesLe (w : World) : WritesLe 1 (Deploy.deployContract w) := by
  unfold Deploy.deployContract
  simp only [bind_eq]
  repeat' with_reducible first
    | intro _
    | exact writesLe_log _
    | exact writesLe_exitWith _
    | exact writesLe_pure _
    | exact writesLe_readFileSync _ _
    | exact writesLe_lift _
    | exact writesLe_call _ _ (by simp [Event.isWrite])
    | apply writesLe_ite
    | apply writesLe_tryCatch
    | apply writesLe_bind

theorem deployLocal_writesLe (w : World) :
    WritesLe 1 (DeployLocal.deployContract w) := by
  unfold DeployLocal.deployContract DeployLocal.deployContractTry
    DeployLocal.deployContractCatch
  simp only [bind_eq]
  repeat' with_reducible first
    | intro _
    | exact writesLe_log _
    | exact writesLe_logs _
    | exact writesLe_exitWith _
    | exact writesLe_pure _
    | exact writesLe_readFileSync _ _
    | exact writesLe_lift _
    | exact writesLe_call _ _ (by simp [Event.isWrite])
    | apply writesLe_ite
    | apply writesLe_tryCatch
    | apply writesLe_bind

theorem listArtifactDir_trace (w : World) :
    (DeployInteractive.listArtifactDir w).trace = [] := by
  unfold DeployInteractive.listArtifactDir
  cases h : w.listDir with
  | none => rfl
  | some listing => cases listing <;> rfl

theorem loadArtifact_writesLe (w : World) :
    WritesLe 0 (DeployInteractive.loadArtifact w) := by
  unfold DeployInteractive.loadArtifact DeployInteractive.loadAbi
    DeployInteractive.loadBytecode
  simp only [bind_eq]
  repeat' with_reducible first
    | intro _
    | exact writesLe_log _
    | exact writesLe_exitWith _
    | exact writesLe_pure _
    | exact writesLe_readFileSync _ _
    | exact writesLe_lift _
    | exact writesLe_of_trace_nil (listArtifactDir_trace _)
    | exact writesLe_call _ _ (by simp [Event.isWrite])
    | apply writesLe_ite
    | apply writesLe_tryCatch
    | apply writesLe_bind

theorem deployInteractive_writesLe (w : World) :
    WritesLe 1 (DeployInteractive.deployContract w) := by
  unfold DeployInteractive.deployContract
  simp only [bind_eq]
  repeat' with_reducible first
    | intro _
    | exact writesLe_log _
    | exact writesLe_exitWith _
    | exact writesLe_pure _
    | exact writesLe_askQuestion _ _
    | exact writesLe_readFileSync _ _
    | exact writesLe_lift _
    | exact loadArtifact_writesLe _
    | exact writesLe_call _ _ (by simp [Event.isWrite])
    | apply writesLe_tryFinally_rlClose
    | apply writesLe_ite
    | apply writesLe_tryCatch
    | apply writesLe_bind

theorem estimateGasStep_writesLe (w : World) (network : NetworkProfile) :
    WritesLe 0 (estimateGasStep w network) := by
  unfold estimateGasStep
  simp only [bind_eq]
  repeat' with_reducible first
    | intro _
    | exact writesLe_log _
    | exact writesLe_pure _
    | exact writesLe_call _ _ (by simp [Event.isWrite])
    | apply writesLe_tryCatch
    | apply writesLe_bind

theorem deployToNetwork_writesLe (w : World) (info : NetworkInfo) :
    WritesLe 0 (deployToNetwork w info) := by
  unfold deployToNetwork deployToNetworkTry deployToNetworkCatch
  simp only [bind_eq]
  repeat' with_reducible first
    | intro _
    | exact writesLe_log _
    | exact writesLe_logs _
    | exact writesLe_pure _
    | exact writesLe_readFileSync _ _
    | exact writesLe_lift _
    | exact estimateGasStep_writesLe _ _
    | exact writesLe_call _ _ (by simp [Event.isWrite])
    | apply writesLe_tryCatch
    | apply writesLe_bind

theorem testNetwork_writesLe (w : World) (networkKey : String) (privateKey : Option String) :
    WritesLe 0 (testNetwork w networkKey privateKey) := by
  unfold testNetwork
  split
  · exact writesLe_of_trace_nil rfl
  · simp only [bind_eq]
    repeat' with_reducible first
      | intro _
      | exact writesLe_log _
      | exact writesLe_pure _
      | exact writesLe_lift _
      | exact writesLe_call _ _ (by simp [Event.isWrite])
      | apply writesLe_ite
      | apply writesLe_tryCatch
      | apply writesLe_bind

theorem testNetworks_writesLe (w : World) (privateKey : String)
    (networks : List (String × NetworkProfile)) :
    WritesLe 0 (testNetworks w privateKey networks) := by
  induction networks with
  | nil => exact writesLe_of_trace_nil rfl
  | cons entry rest ih =>
    obtain ⟨key, network⟩ := entry
    unfold testNetworks
    simp only [bind_eq]
    refine writesLe_bind (testNetwork_writesLe _ _ _) (fun _ => ?_)
    refine writesLe_bind ih (fun _ => ?_)
    exact writesLe_pure _

theorem saveDeployment_writesLe (w : World) (result : DeployResult) :
    WritesLe 1 (saveDeployment w result) := by
  cases result with
  | succeeded a n => exact writesLe_call _ _ (Or.inr (le_refl 1))
  | failed msg => exact writesLe_pure _

theorem deploySelected_writesLe (w : World) (selected : Option (String × NetworkInfo)) :
    WritesLe 1 (deploySelected w selected) := by
  cases selected with
  | none => exact writesLe_log _
  | some selectedNetwork =>
    unfold deploySelected
    simp only [bind_eq]
    exact writesLe_bind (deployToNetwork_writesLe _ _) (fun _ => saveDeployment_writesLe _ _)

theorem main_writesLe (w : World) : WritesLe 1 (main w) := by
  unfold main mainTry
  simp only [bind_eq]
  repeat' with_reducible first
    | intro _
    | exact writesLe_log _
    | exact writesLe_pure _
    | exact writesLe_askQuestion _ _
    | exact testNetworks_writesLe _ _ _
    | exact deploySelected_writesLe _ _
    | apply writesLe_tryFinally_rlClose
    | apply writesLe_ite
    | apply writesLe_tryCatch
    | apply writesLe_bind

/-! ## A record is written only after every step -/

theorem deployJs_steps_of_write_mem (w : World) (path : String) (info : DeploymentInfo)
    (h : Event.writeFile path info ∈ (Deploy.deployContract w).trace) :
    ∃ bytecode, Confirmed (w.chain Deploy.NETWORK_CONFIG.rpcUrl) bytecode true ∧
      Verified (w.chain Deploy.NETWORK_CONFIG.rpcUrl) := by
  unfold Deploy.deployContract at h
  simp only [bind_eq, mem_bind_trace, bind_res_ok, call_res_ok, call_trace, lift_res_ok,
    lift_trace, readFileSync_res_ok, readFileSync_trace, mem_tryCatch_trace, ite_res_eq,
    mem_ite_trace, pure_res, pure_trace, log_res, log_trace, exitWith_res, exitWith_trace,
    List.mem_singleton, List.not_mem_nil, reduceCtorEq, false_or, or_false, and_false,
    false_and, exists_false, exists_const, and_true, true_and] at h
  obtain ⟨-, wallet, -, balance, -, -, -, abiText, -, abi_, -, bytes, -, output, -, abi, -, u1, -,
    tx, h5, u2, h6, address, h7, v1, h8, u3, h9, u4, h10, v2, h11, -⟩ := h
  exact ⟨bytecodeOf bytes, ⟨⟨tx, h5⟩, h6⟩, ⟨address, h7⟩, ⟨v1, h8⟩, h9, h10, ⟨v2, h11⟩⟩

theorem deployLocal_steps_of_write_mem (w : World) (path : String) (info : DeploymentInfo)
    (h : Event.writeFile path info ∈ (DeployLocal.deployContract w).trace) :
    ∃ bytecode, Confirmed (w.chain DeployLocal.NETWORK_CONFIG.rpcUrl) bytecode true ∧
      Verified (w.chain DeployLocal.NETWORK_CONFIG.rpcUrl) := by
  unfold DeployLocal.deployContract DeployLocal.deployContractTry
    DeployLocal.deployContractCatch at h
  simp only [bind_eq, mem_bind_trace, bind_res_ok, call_res_ok, call_trace, lift_res_ok,
    lift_trace, readFileSync_res_ok, readFileSync_trace, mem_tryCatch_trace, tryCatch_res_ok,
    ite_res_eq,
    mem_ite_trace, pure_res, pure_trace, log_res, log_trace, logs_trace, logs_res,
    exitWith_res, exitWith_trace, List.mem_map,
    List.mem_singleton, List.not_mem_nil, reduceCtorEq, false_or, or_false, and_false,
    false_and, exists_false, exists_const, and_true, true_and] at h
  obtain ⟨wallet, -, balanceRead, -, -, -, abiText, -, abi, -, bytes, -, u1, -, tx, h5, u2, h6,
    address, h7, v1, h8, u3, h9, u4, h10, v2, h11, -⟩ := h
  exact ⟨bytecodeOf bytes, ⟨⟨tx, h5⟩, h6⟩, ⟨address, h7⟩, ⟨v1, h8⟩, h9, h10, ⟨v2, h11⟩⟩

theorem not_write_mem_of_writesLe_zero {α : Type} {x : Eff α} (hx : WritesLe 0 x)
    (path : String) (info : DeploymentInfo) : Event.writeFile path info ∉ x.trace := by
  intro hmem
  have hpos : 0 < writes x.trace := List.countP_pos_iff.2 ⟨_, hmem, rfl⟩
  unfold WritesLe at hx
  omega

theorem snd_mem_of_lookup_eq_some {α : Type} (key : String) (value : α)
    (l : List (String × α)) (h : l.lookup key = some value) : value ∈ l.map Prod.snd := by
  induction l with
  | nil => simp at h
  | cons entry rest ih =>
    obtain ⟨k, v⟩ := entry
    simp only [List.lookup] at h
    split at h
    · simp only [Option.some.injEq] at h
      simp [h]
    · simp [ih h]

theorem testNetwork_res_network (w : World) (networkKey : String) (privateKey : Option String)
    (r : NetworkInfo) (h : (testNetwork w networkKey privateKey).res = .ok r) :
    NETWORKS.lookup networkKey = some r.network := by
  cases hnet : NETWORKS.lookup networkKey with
  | none =>
    rw [testNetwork_unknown_key_raises w networkKey privateKey hnet] at h
    simp at h
  | some network =>
    obtain ⟨r', hr', hn⟩ := testNetwork_returns_of_lookup w networkKey network privateKey hnet
    rw [hr'] at h
    simp only [Res.ok.injEq] at h
    rw [← h, hn]

theorem testNetworks_res_networks (w : World) (privateKey : String)
    (networks : List (String × NetworkProfile)) :
    ∀ results, (testNetworks w privateKey networks).res = .ok results →
      ∀ s ∈ results, s.2.network ∈ NETWORKS.map Prod.snd := by
  induction networks with
  | nil =>
    intro results h s hs
    simp only [testNetworks, pure_res, Res.ok.injEq] at h
    subst h
    simp at hs
  | cons entry rest ih =>
    obtain ⟨key, network⟩ := entry
    intro results h s hs
    unfold testNetworks at h
    simp only [bind_eq, bind_res_ok, pure_res, Res.ok.injEq] at h
    obtain ⟨r, hr, rs, hrs, rfl⟩ := h
    rcases List.mem_cons.1 hs with rfl | hmem
    · exact snd_mem_of_lookup_eq_some _ _ _ (testNetwork_res_network w key _ r hr)
    · exact ih rs hrs s hmem

theorem elementAt_mem {α : Type} (array : List α) (index : Option Int) (a : α)
    (h : elementAt array index = some a) : a ∈ array := by
  unfold elementAt at h
  cases index with
  | none => simp at h
  | some i =>
    simp only at h
    split at h
    · exact List.get?_mem h
    · simp at h

theorem deploySelected_write_mem (w : World) (selected : Option (String × NetworkInfo))
    (path : String) (info : DeploymentInfo)
    (h : Event.writeFile path info ∈ (deploySelected w selected).trace) :
    ∃ s address name, selected = some s ∧
      (deployToNetwork w s.2).res = .ok (.succeeded address name) := by
  cases selected with
  | none => simp [deploySelected, log_trace] at h
  | some s =>
    unfold deploySelected at h
    simp only [bind_eq, mem_bind_trace] at h
    rcases h with h | ⟨r, hr, h⟩
    · exact absurd h (not_write_mem_of_writesLe_zero (deployToNetwork_writesLe w s.2) _ _)
    · cases r with
      | succeeded address name => exact ⟨s, address, name, rfl, hr⟩
      | failed msg => simp [saveDeployment, pure_trace] at h

theorem main_steps_of_write_mem (w : World) (path : String) (info : DeploymentInfo)
    (h : Event.writeFile path info ∈ (main w).trace) :
    ∃ network ∈ NETWORKS.map Prod.snd, ∃ bytecode, ArtifactLoaded w bytecode ∧
      Confirmed (w.chain network.rpcUrl) bytecode true ∧ Verified (w.chain network.rpcUrl) := by
  unfold main mainTry at h
  have hno := fun pk => not_write_mem_of_writesLe_zero (testNetworks_writesLe w pk NETWORKS)
    path info
  simp only [bind_eq, mem_bind_trace, bind_res_ok, mem_tryFinally_trace, mem_tryCatch_trace,
    mem_ite_trace, askQuestion_res, askQuestion_trace, log_trace, hno,
    List.mem_singleton, List.not_mem_nil, reduceCtorEq, false_or, or_false, and_false,
    false_and, exists_false, exists_const, and_true, true_and, Res.ok.injEq, exists_eq_left']
    at h
  obtain ⟨results, hres, -, hsel⟩ := h
  obtain ⟨s, address, name, hs, hdeploy⟩ := deploySelected_write_mem w _ path info hsel
  have hmem := List.mem_of_mem_filter (elementAt_mem _ _ _ hs)
  obtain ⟨-, -, bytecode, h1, h2, h3⟩ := (deployToNetwork_succeeded_iff w s.2 address name).1 hdeploy
  exact ⟨s.2.network, testNetworks_res_networks w _ NETWORKS results hres s hmem, bytecode,
    h1, h2, h3⟩

theorem deployInteractive_steps_of_write_mem (w : World) (path : String) (info : DeploymentInfo)
    (h : Event.writeFile path info ∈ (DeployInteractive.deployContract w).trace) :
    ∃ bytecode,
      Confirmed (w.chain DeployInteractive.NETWORK_CONFIG.rpcUrl) bytecode
        (DeployInteractive.parseInitValue
          (w.answer "Enter initial boolean value (true/false) [default: true]: ")) ∧
      VerifiedInteractive (w.chain DeployInteractive.NETWORK_CONFIG.rpcUrl)
        (w.answer "Test flip function? (y/N): ") := by
  unfold DeployInteractive.deployContract at h
  have hno := not_write_mem_of_writesLe_zero (loadArtifact_writesLe w) path info
  simp only [bind_eq, mem_bind_trace, bind_res_ok, call_res_ok, call_trace, lift_res_ok,
    lift_trace, mem_tryCatch_trace, mem_tryFinally_trace, ite_res_eq,
    mem_ite_trace, pure_res, pure_trace, log_res, log_trace,
    exitWith_res, exitWith_trace, askQuestion_res, askQuestion_trace, hno,
    List.mem_singleton, List.not_mem_nil, reduceCtorEq, false_or, or_false, and_false,
    false_and, exists_false, exists_const, and_true, true_and, Res.ok.injEq, exists_eq_left']
    at h
  obtain ⟨-, wallet, -, balance, -, -, artifact, -, -, u1, -, tx, h5, u2, h6, address, h7, v1, h8,
    reads, hflip, v3, h12, -⟩ := h
  refine ⟨artifact.2, ⟨⟨tx, h5⟩, h6⟩, ⟨address, h7⟩, ⟨v1, h8⟩, ?_⟩
  rcases hflip with ⟨hy, u3, h9, u4, h10, v2, h11, rfl⟩ | ⟨hn, rfl⟩
  · exact Or.inl ⟨hy, h9, h10, ⟨v2, h11⟩, ⟨v3, h12⟩⟩
  · exact Or.inr ⟨hn, ⟨v3, h12⟩⟩

/-- Counterexample to C3 as stated: in `declinedFlipWorld` the user declines
the flip test of `deploy-interactive.js` (and `flip()` would have reverted); no
`flip()` is ever called, and the deployment record is written all the same. -/
theorem interactive_record_written_without_flip :
    toLowerCase (declinedFlipWorld.answer "Test flip function? (y/N): ") ≠ "y" ∧
    (declinedFlipWorld.chain DeployInteractive.NETWORK_CONFIG.rpcUrl).flip =
      .error ⟨"execution reverted", some "CALL_EXCEPTION"⟩ ∧
    ((DeployInteractive.deployContract declinedFlipWorld).trace.any
      (fun ev => match ev with
        | .flip _ => true
        | _ => false)) = false ∧
    writes (DeployInteractive.deployContract declinedFlipWorld).trace = 1 := by
  refine ⟨by decide, rfl, by decide, by decide⟩

/-- C3 (amended). Record atomicity.  In every run of `deploy.js`,
`deploy-local.js`, `deploy-debug.js` and `deploy-interactive.js` the
deployment record is written at most once.  In the first three a record is
written only after submission, confirmation, the address query, both reads and
the flip with its confirmation have all completed, so none is written when one
of them raises (a reverted deployment included).  In `deploy-interactive.js`
a record is written only after submission, confirmation, the address query and
the reads have completed; the flip and its confirmation are required only when
the user accepted the flip test. -/
theorem record_written_once_after_steps (w : World) :
    (writes (Deploy.deployContract w).trace ≤ 1 ∧
      writes (DeployLocal.deployContract w).trace ≤ 1 ∧
      writes (main w).trace ≤ 1 ∧
      writes (DeployInteractive.deployContract w).trace ≤ 1) ∧
    (∀ path info, Event.writeFile path info ∈ (Deploy.deployContract w).trace →
      ∃ bytecode, Confirmed (w.chain Deploy.NETWORK_CONFIG.rpcUrl) bytecode true ∧
        Verified (w.chain Deploy.NETWORK_CONFIG.rpcUrl)) ∧
    (∀ path info, Event.writeFile path info ∈ (DeployLocal.deployContract w).trace →
      ∃ bytecode, Confirmed (w.chain DeployLocal.NETWORK_CONFIG.rpcUrl) bytecode true ∧
        Verified (w.chain DeployLocal.NETWORK_CONFIG.rpcUrl)) ∧
    (∀ path info, Event.writeFile path info ∈ (main w).trace →
      ∃ network ∈ NETWORKS.map Prod.snd, ∃ bytecode, ArtifactLoaded w bytecode ∧
        Confirmed (w.chain network.rpcUrl) bytecode true ∧
        Verified (w.chain network.rpcUrl)) ∧
    (∀ path info, Event.writeFile path info ∈ (DeployInteractive.deployContract w).trace →
      ∃ bytecode,
        Confirmed (w.chain DeployInteractive.NETWORK_CONFIG.rpcUrl) bytecode
          (DeployInteractive.parseInitValue
            (w.answer "Enter initial boolean value (true/false) [default: true]: ")) ∧
        VerifiedInteractive (w.chain DeployInteractive.NETWORK_CONFIG.rpcUrl)
          (w.answer "Test flip function? (y/N): ")) :=
  ⟨⟨deployJs_writesLe w, deployLocal_writesLe w, main_writesLe w,
      deployInteractive_writesLe w⟩,
    deployJs_steps_of_write_mem w, deployLocal_steps_of_write_mem w, main_steps_of_write_mem w,
    deployInteractive_steps_of_write_mem w⟩

/-- Witness for C3: in `sampleWorld` the debug pipeline writes its record, and
the steps of the selected network (the first deployable one) all completed. -/
theorem record_written_once_after_steps_witness :
    Event.writeFile "deployment-debug.json"
        [("network", .str "Polkadot Hub Testnet"), ("contractAddress", .str "0xC0DE"),
         ("deploymentTime", .str "2025-01-01T00:00:00.000Z")] ∈ (main sampleWorld).trace ∧
    ∃ network ∈ NETWORKS.map Prod.snd, ∃ bytecode, ArtifactLoaded sampleWorld bytecode ∧
      Confirmed (sampleWorld.chain network.rpcUrl) bytecode true ∧
      Verified (sampleWorld.chain network.rpcUrl) :=
  have hmem : Event.writeFile "deployment-debug.json"
      [("network", .str "Polkadot Hub Testnet"), ("contractAddress", .str "0xC0DE"),
       ("deploymentTime", .str "2025-01-01T00:00:00.000Z")] ∈ (main sampleWorld).trace := by
    repeat (first | exact List.Mem.head _ | apply List.Mem.tail)
  ⟨hmem, (record_written_once_after_steps sampleWorld).2.2.2.1 _ _ hmem⟩

/-! ## The artifact loader -/

/-- Counterexample to C9 as stated: the binary is present, the Solidity ABI
file is missing, and so is the ink! metadata file; the loader of
`deploy-interactive.js` produces no description: it exits with status 1. -/
theorem loadArtifact_exits_without_metadata :
    binaryOnlyWorld.files abiPath = none ∧
    binaryOnlyWorld.files bytecodePath = some [80, 86, 77] ∧
    (DeployInteractive.loadArtifact binaryOnlyWorld).res = .exit 1 :=
  ⟨rfl, rfl, rfl⟩

/-- C9 (amended). When the Solidity ABI file is missing, the ink! metadata
file is present and the binary is present, the loader of
`deploy-interactive.js` returns the synthetic description together with the
binary; that description has three entries: exactly one constructor, whose
single parameter is a `bool`, and exactly two functions, `flip`
(`nonpayable`, the mutating toggle) and `get` (`view`, the read accessor). -/
theorem loadArtifact_synthesizes_description (w : World) (bytes : List Nat)
    (habi : w.files abiPath = none) (hmeta : (w.files metadataPath).isSome = true)
    (hbin : w.files bytecodePath = some bytes) :
    (DeployInteractive.loadArtifact w).res =
      .ok (DeployInteractive.syntheticAbi, bytecodeOf bytes) ∧
    DeployInteractive.syntheticAbi.items.length = 3 ∧
    (abiEntries DeployInteractive.syntheticAbi "constructor").map inputTypes =
      [[some "bool"]] ∧
    (abiEntries DeployInteractive.syntheticAbi "function").map
        (fun entry => (entry.stringField "name", entry.stringField "stateMutability")) =
      [(some "flip", some "nonpayable"), (some "get", some "view")] := by
  refine ⟨?_, by decide, by decide, by decide⟩
  unfold DeployInteractive.loadArtifact DeployInteractive.loadAbi DeployInteractive.loadBytecode
  simp [existsSync, readFileSync, habi, hmeta, hbin, bind_eq, pure_eq, Eff.bind, Eff.call]

/-- Witness for C9: `metadataWorld` holds the metadata and the binary only. -/
theorem loadArtifact_synthesizes_description_witness :
    (DeployInteractive.loadArtifact metadataWorld).res =
      .ok (DeployInteractive.syntheticAbi, bytecodeOf [80, 86, 77]) ∧
    DeployInteractive.syntheticAbi.items.length = 3 ∧
    (abiEntries DeployInteractive.syntheticAbi "constructor").map inputTypes =
      [[some "bool"]] ∧
    (abiEntries DeployInteractive.syntheticAbi "function").map
        (fun entry => (entry.stringField "name", entry.stringField "stateMutability")) =
      [(some "flip", some "nonpayable"), (some "get", some "view")] :=
  loadArtifact_synthesizes_description metadataWorld [80, 86, 77] rfl rfl rfl

theorem bytecodeOf_length (bytes : List Nat) :
    (bytecodeOf bytes).length = 2 + 2 * bytes.length := by
  have h : ∀ bs : List Nat, (toHex bs).length = 2 * bs.length := by
    intro bs
    induction bs with
    | nil => rfl
    | cons b rest ih => simp only [toHex, List.length_cons, ih]; omega
  unfold bytecodeOf
  rw [String.length_append]
  simp only [String.length, h]
  rfl

theorem deploy_not_mem_estimateGasStep (w : World) (network : NetworkProfile)
    (url bytecode : String) (arg : Bool) (gas : Option Nat) :
    Event.deploy url bytecode arg gas ∉ (estimateGasStep w network).trace := by
  unfold estimateGasStep
  simp only [bind_eq, mem_bind_trace, mem_tryCatch_trace, call_trace, log_trace, pure_trace,
    List.mem_singleton, List.not_mem_nil, reduceCtorEq, false_or, or_false, and_false,
    exists_false, not_false_eq_true]

theorem deployToNetwork_bytecode_of_deploy_mem (w : World) (info : NetworkInfo)
    (url bytecode : String) (arg : Bool) (gas : Option Nat)
    (h : Event.deploy url bytecode arg gas ∈ (deployToNetwork w info).trace) :
    ∃ bytes, w.files bytecodePath = some bytes ∧ bytecode = bytecodeOf bytes := by
  unfold deployToNetwork deployToNetworkTry deployToNetworkCatch at h
  simp only [bind_eq, mem_bind_trace, bind_res_ok, call_res_ok, call_trace, lift_res_ok,
    lift_trace, readFileSync_res_ok, readFileSync_trace, mem_tryCatch_trace,
    pure_res, pure_trace, log_res, log_trace, logs_trace, logs_res, estimateGasStep_res,
    deploy_not_mem_estimateGasStep, List.mem_map,
    List.mem_singleton, List.not_mem_nil, reduceCtorEq, false_or, or_false, and_false,
    false_and, exists_false, exists_const, and_true, true_and, Event.deploy.injEq] at h
  obtain ⟨-, -, -, -, bytes, hb, -, -, -, hbc, -, -⟩ := h
  exact ⟨bytes, hb, hbc⟩

theorem deployJs_bytecode_of_deploy_mem (w : World)
    (url bytecode : String) (arg : Bool) (gas : Option Nat)
    (h : Event.deploy url bytecode arg gas ∈ (Deploy.deployContract w).trace) :
    ∃ bytes, w.files bytecodePath = some bytes ∧ bytecode = bytecodeOf bytes := by
  unfold Deploy.deployContract at h
  simp only [bind_eq, mem_bind_trace, bind_res_ok, call_res_ok, call_trace, lift_res_ok,
    lift_trace, readFileSync_res_ok, readFileSync_trace, mem_tryCatch_trace, ite_res_eq,
    mem_ite_trace, pure_res, pure_trace, log_res, log_trace, exitWith_res, exitWith_trace,
    List.mem_singleton, List.not_mem_nil, reduceCtorEq, false_or, or_false, and_false,
    false_and, exists_false, exists_const, and_true, true_and, Event.deploy.injEq] at h
  obtain ⟨-, -, -, -, -, -, -, -, -, -, -, bytes, hb, -, -, -, -, -, -, -, hbc, -, -⟩ := h
  exact ⟨bytes, hb, hbc⟩

theorem deployLocal_bytecode_of_deploy_mem (w : World)
    (url bytecode : String) (arg : Bool) (gas : Option Nat)
    (h : Event.deploy url bytecode arg gas ∈ (DeployLocal.deployContract w).trace) :
    ∃ bytes, w.files bytecodePath = some bytes ∧ bytecode = bytecodeOf bytes := by
  unfold DeployLocal.deployContract DeployLocal.deployContractTry
    DeployLocal.deployContractCatch at h
  simp only [bind_eq, mem_bind_trace, bind_res_ok, call_res_ok, call_trace, lift_res_ok,
    lift_trace, readFileSync_res_ok, readFileSync_trace, mem_tryCatch_trace, tryCatch_res_ok,
    ite_res_eq, mem_ite_trace, pure_res, pure_trace, log_res, log_trace, logs_trace, logs_res,
    exitWith_res, exitWith_trace, List.mem_map,
    List.mem_singleton, List.not_mem_nil, reduceCtorEq, false_or, or_false, and_false,
    false_and, exists_false, exists_const, and_true, true_and, Event.deploy.injEq] at h
  obtain ⟨-, -, -, -, -, -, -, -, -, -, bytes, hb, -, -, -, hbc, -, -⟩ := h
  exact ⟨bytes, hb, hbc⟩

theorem loadArtifact_res_ok (w : World) (artifact : JsonValue × String)
    (h : (DeployInteractive.loadArtifact w).res = .ok artifact) :
    ∃ bytes, w.files bytecodePath = some bytes ∧ artifact.2 = bytecodeOf bytes := by
  unfold DeployInteractive.loadArtifact DeployInteractive.loadBytecode at h
  simp only [bind_eq, bind_res_ok, readFileSync_res_ok, ite_res_eq, pure_res, log_res,
    exitWith_res, reduceCtorEq, and_false, exists_false, false_or, exists_const, Res.ok.injEq]
    at h
  obtain ⟨abi, -, bytecode, ⟨-, bytes, hb, rfl⟩, rfl⟩ := h
  exact ⟨bytes, hb, rfl⟩

theorem deploy_not_mem_loadArtifact (w : World)
    (url bytecode : String) (arg : Bool) (gas : Option Nat) :
    Event.deploy url bytecode arg gas ∉ (DeployInteractive.loadArtifact w).trace := by
  unfold DeployInteractive.loadArtifact DeployInteractive.loadAbi DeployInteractive.loadBytecode
  simp only [bind_eq, mem_bind_trace, mem_ite_trace, call_trace, lift_trace, log_trace,
    pure_trace, exitWith_trace, readFileSync_trace, listArtifactDir_trace,
    List.mem_singleton, List.not_mem_nil, reduceCtorEq, false_or, or_false, and_false,
    exists_false, not_false_eq_true]

theorem deployInteractive_bytecode_of_deploy_mem (w : World)
    (url bytecode : String) (arg : Bool) (gas : Option Nat)
    (h : Event.deploy url bytecode arg gas ∈ (DeployInteractive.deployContract w).trace) :
    ∃ bytes, w.files bytecodePath = some bytes ∧ bytecode = bytecodeOf bytes := by
  unfold DeployInteractive.deployContract at h
  simp only [bind_eq, mem_bind_trace, bind_res_ok, call_res_ok, call_trace, lift_res_ok,
    lift_trace, mem_tryCatch_trace, mem_tryFinally_trace, ite_res_eq,
    mem_ite_trace, pure_res, pure_trace, log_res, log_trace,
    exitWith_res, exitWith_trace, askQuestion_res, askQuestion_trace,
    deploy_not_mem_loadArtifact,
    List.mem_singleton, List.not_mem_nil, reduceCtorEq, false_or, or_false, and_false,
    false_and, exists_false, exists_const, and_true, true_and, Res.ok.injEq, exists_eq_left',
    Event.deploy.injEq] at h
  obtain ⟨-, -, -, -, -, -, artifact, hart, -, -, -, -, hbc, -, -⟩ := h
  obtain ⟨bytes, hb, hb2⟩ := loadArtifact_res_ok w artifact hart
  exact ⟨bytes, hb, by rw [hbc, hb2]⟩

/-- Counterexample to C10 as stated: in `emptyBinaryWorld` the binary file is
present and empty; the loader of `deploy-interactive.js` succeeds and hands
over the bytecode `0x`, and `deploy-interactive.js`, `deploy.js` and
`deployToNetwork` all submit a deployment of that empty bytecode. -/
theorem empty_binary_is_loaded_and_deployed :
    emptyBinaryWorld.files bytecodePath = some [] ∧
    (DeployInteractive.loadArtifact emptyBinaryWorld).res =
      .ok (.obj [("output", .obj [("abi", .arr [])])], "0x") ∧
    ((DeployInteractive.deployContract emptyBinaryWorld).trace.any (Event.isDeployOf "0x"))
      = true ∧
    ((Deploy.deployContract emptyBinaryWorld).trace.any (Event.isDeployOf "0x")) = true ∧
    ((deployToNetwork emptyBinaryWorld sampleInfo).trace.any (Event.isDeployOf "0x")) = true := by
  refine ⟨rfl, rfl, by decide, by decide, by decide⟩

/-- C10 (amended). Every bytecode submitted for deployment by
`deployToNetwork`, `deploy.js`, `deploy-local.js` or `deploy-interactive.js`,
and every bytecode returned by the loader of `deploy-interactive.js`, is
`'0x'` followed by the hex digits of the bytes of the binary file, which
therefore exists.  So when the binary file is missing the loader fails and no
deployment is submitted.  There is no emptiness check: the bytecode has two
hex digits per byte of the file and is empty exactly when the file is. -/
theorem deployed_bytecode_is_binary_file (w : World) (info : NetworkInfo) :
    (∀ url bytecode arg gas,
      (Event.deploy url bytecode arg gas ∈ (deployToNetwork w info).trace ∨
        Event.deploy url bytecode arg gas ∈ (Deploy.deployContract w).trace ∨
        Event.deploy url bytecode arg gas ∈ (DeployLocal.deployContract w).trace ∨
        Event.deploy url bytecode arg gas ∈ (DeployInteractive.deployContract w).trace) →
      ∃ bytes, w.files bytecodePath = some bytes ∧ bytecode = bytecodeOf bytes ∧
        bytecode.length = 2 + 2 * bytes.length) ∧
    (∀ artifact, (DeployInteractive.loadArtifact w).res = .ok artifact →
      ∃ bytes, w.files bytecodePath = some bytes ∧ artifact.2 = bytecodeOf bytes ∧
        artifact.2.length = 2 + 2 * bytes.length) ∧
    (w.files bytecodePath = none →
      (∀ artifact, (DeployInteractive.loadArtifact w).res ≠ .ok artifact) ∧
      (∃ msg, (deployToNetwork w info).res = .ok (.failed msg)) ∧
      (∀ ev ∈ (deployToNetwork w info).trace, ev.isDeploy = false) ∧
      (∀ ev ∈ (Deploy.deployContract w).trace, ev.isDeploy = false) ∧
      (∀ ev ∈ (DeployLocal.deployContract w).trace, ev.isDeploy = false) ∧
      (∀ ev ∈ (DeployInteractive.deployContract w).trace, ev.isDeploy = false)) := by
  have key : ∀ url bytecode arg gas,
      (Event.deploy url bytecode arg gas ∈ (deployToNetwork w info).trace ∨
        Event.deploy url bytecode arg gas ∈ (Deploy.deployContract w).trace ∨
        Event.deploy url bytecode arg gas ∈ (DeployLocal.deployContract w).trace ∨
        Event.deploy url bytecode arg gas ∈ (DeployInteractive.deployContract w).trace) →
      ∃ bytes, w.files bytecodePath = some bytes ∧ bytecode = bytecodeOf bytes := by
    intro url bytecode arg gas h
    rcases h with h | h | h | h
    · exact deployToNetwork_bytecode_of_deploy_mem w info url bytecode arg gas h
    · exact deployJs_bytecode_of_deploy_mem w url bytecode arg gas h
    · exact deployLocal_bytecode_of_deploy_mem w url bytecode arg gas h
    · exact deployInteractive_bytecode_of_deploy_mem w url bytecode arg gas h
  have none_of : ∀ trace : List Event,
      (∀ url bytecode arg gas, Event.deploy url bytecode arg gas ∈ trace →
        ∃ bytes, w.files bytecodePath = some bytes ∧ bytecode = bytecodeOf bytes) →
      w.files bytecodePath = none → ∀ ev ∈ trace, ev.isDeploy = false := by
    intro trace htrace hnone ev hev
    cases ev with
    | deploy url bytecode arg gas =>
      obtain ⟨bytes, hb, -⟩ := htrace url bytecode arg gas hev
      rw [hnone] at hb
      exact absurd hb (by simp)
    | _ => rfl
  refine ⟨?_, ?_, ?_⟩
  · intro url bytecode arg gas h
    obtain ⟨bytes, hb, rfl⟩ := key url bytecode arg gas h
    exact ⟨bytes, hb, rfl, bytecodeOf_length bytes⟩
  · intro artifact h
    obtain ⟨bytes, hb, hb2⟩ := loadArtifact_res_ok w artifact h
    exact ⟨bytes, hb, hb2, by rw [hb2]; exact bytecodeOf_length bytes⟩
  · intro hnone
    refine ⟨?_, ?_, ?_, ?_, ?_, ?_⟩
    · intro artifact h
      obtain ⟨bytes, hb, -⟩ := loadArtifact_res_ok w artifact h
      rw [hnone] at hb
      exact absurd hb (by simp)
    · obtain ⟨r, hr⟩ := deployToNetwork_returns w info
      cases r with
      | failed msg => exact ⟨msg, hr⟩
      | succeeded address name =>
        obtain ⟨-, -, bytecode, ⟨-, -, bytes, -, -, hb, -, -⟩, -, -⟩ :=
          (deployToNetwork_succeeded_iff w info address name).1 hr
        rw [hnone] at hb
        exact absurd hb (by simp)
    · exact none_of _ (fun u b a g h => key u b a g (Or.inl h)) hnone
    · exact none_of _ (fun u b a g h => key u b a g (Or.inr (Or.inl h))) hnone
    · exact none_of _ (fun u b a g h => key u b a g (Or.inr (Or.inr (Or.inl h)))) hnone
    · exact none_of _ (fun u b a g h => key u b a g (Or.inr (Or.inr (Or.inr h)))) hnone

/-- Witness for C10: in `missingBinaryWorld` the loader fails, `deployToNetwork`
reports a failure and `deploy.js` submits nothing. -/
theorem deployed_bytecode_is_binary_file_witness :
    missingBinaryWorld.files bytecodePath = none ∧
    (∀ artifact, (DeployInteractive.loadArtifact missingBinaryWorld).res ≠ .ok artifact) ∧
    (∃ msg, (deployToNetwork missingBinaryWorld sampleInfo).res = .ok (.failed msg)) ∧
    (∀ ev ∈ (Deploy.deployContract missingBinaryWorld).trace, ev.isDeploy = false) :=
  have h := (deployed_bytecode_is_binary_file missingBinaryWorld sampleInfo).2.2 rfl
  ⟨rfl, h.1, h.2.1, h.2.2.2.1⟩

/-! ## Properties of all events of a run -/

theorem traceAll_bind {α β : Type} {p : Event → Bool} {x : Eff α} {f : α → Eff β}
    (hx : TraceAll p x) (hf : ∀ a, x.res = .ok a → TraceAll p (f a)) :
    TraceAll p (Eff.bind x f) := by
  intro ev hev
  rcases (mem_bind_trace x f ev).1 hev with h | ⟨a, ha, h⟩
  · exact hx ev h
  · exact hf a ha ev h

theorem traceAll_tryCatch {α : Type} {p : Event → Bool} {body : Eff α}
    {handler : JsError → Eff α} (hb : TraceAll p body) (hh : ∀ e, TraceAll p (handler e)) :
    TraceAll p (Eff.tryCatch body handler) := by
  intro ev hev
  rcases (mem_tryCatch_trace body handler ev).1 hev with h | ⟨e, -, h⟩
  · exact hb ev h
  · exact hh e ev h

theorem traceAll_tryFinally {α : Type} {p : Event → Bool} {body : Eff α} {fin : List Event}
    (hb : TraceAll p body) (hfin : ∀ ev ∈ fin, p ev = true) :
    TraceAll p (Eff.tryFinally body fin) := by
  intro ev hev
  rcases (mem_tryFinally_trace body fin ev).1 hev with h | ⟨-, h⟩
  · exact hb ev h
  · exact hfin ev h

theorem traceAll_ite {α : Type} {p : Event → Bool} {c : Prop} [Decidable c] {x y : Eff α}
    (hx : TraceAll p x) (hy : TraceAll p y) : TraceAll p (if c then x else y) := by
  by_cases h : c <;> simp [h, hx, hy]

theorem traceAll_call {α : Type} {p : Event → Bool} (e : Event) (o : Outcome α)
    (h : p e = true) : TraceAll p (call e o) := by
  intro ev hev
  rw [call_trace, List.mem_singleton] at hev
  rw [hev, h]

theorem traceAll_of_trace_nil {α : Type} {p : Event → Bool} {x : Eff α} (h : x.trace = []) :
    TraceAll p x := by
  intro ev hev
  rw [h] at hev
  exact absurd hev (List.not_mem_nil ev)

theorem traceAll_lift {α : Type} {p : Event → Bool} (o : Outcome α) : TraceAll p (lift o) :=
  traceAll_of_trace_nil (lift_trace o)

theorem traceAll_pure {α : Type} {p : Event → Bool} (a : α) : TraceAll p (pure a : Eff α) :=
  traceAll_of_trace_nil rfl

theorem traceAll_log {p : Event → Bool} (line : String) (h : p (.log line) = true) :
    TraceAll p (log line) := by
  intro ev hev
  rw [log_trace, List.mem_singleton] at hev
  rw [hev, h]

theorem testNetwork_traceAll_isProbe (w : World) (networkKey : String)
    (privateKey : Option String) :
    TraceAll Event.isProbe (testNetwork w networkKey privateKey) := by
  unfold testNetwork
  split
  · exact traceAll_of_trace_nil rfl
  · simp only [bind_eq]
    repeat' with_reducible first
      | intro _
      | exact traceAll_log _ (by simp [Event.isProbe])
      | exact traceAll_pure _
      | exact traceAll_lift _
      | exact traceAll_call _ _ (by simp [Event.isProbe])
      | apply traceAll_ite
      | apply traceAll_tryCatch
      | apply traceAll_bind

theorem testNetworks_traceAll_isProbe (w : World) (privateKey : String)
    (networks : List (String × NetworkProfile)) :
    TraceAll Event.isProbe (testNetworks w privateKey networks) := by
  induction networks with
  | nil => exact traceAll_of_trace_nil rfl
  | cons entry rest ih =>
    obtain ⟨key, network⟩ := entry
    unfold testNetworks
    simp only [bind_eq]
    refine traceAll_bind (testNetwork_traceAll_isProbe _ _ _) (fun _ _ => ?_)
    refine traceAll_bind ih (fun _ _ => ?_)
    exact traceAll_pure _

/-! ## Probing all networks -/

theorem testNetworks_results (w : World) (privateKey : String)
    (P : String → NetworkInfo → Prop) (networks : List (String × NetworkProfile))
    (hP : ∀ entry ∈ networks,
      ∃ r, (testNetwork w entry.1 (some privateKey)).res = .ok r ∧ P entry.1 r) :
    ∃ results, (testNetworks w privateKey networks).res = .ok results ∧
      results.map Prod.fst = networks.map Prod.fst ∧ ∀ s ∈ results, P s.1 s.2 := by
  induction networks with
  | nil => exact ⟨[], rfl, rfl, by simp⟩
  | cons entry rest ih =>
    obtain ⟨key, network⟩ := entry
    obtain ⟨r, hr, hPr⟩ := hP (key, network) (List.mem_cons_self _ _)
    obtain ⟨rs, hrs, hkeys, hall⟩ := ih (fun e he => hP e (List.mem_cons_of_mem _ he))
    refine ⟨(key, r) :: rs, ?_, by simp [hkeys], ?_⟩
    · unfold testNetworks
      simp only [bind_eq, bind_res_ok, pure_res, Res.ok.injEq]
      exact ⟨r, hr, rs, hrs, rfl⟩
    · intro s hs
      rcases List.mem_cons.1 hs with rfl | hmem
      · exact hPr
      · exact hall s hmem

theorem testNetworks_mem (w : World) (privateKey : String)
    (networks : List (String × NetworkProfile)) :
    ∀ results, (testNetworks w privateKey networks).res = .ok results →
      ∀ s ∈ results, (testNetwork w s.1 (some privateKey)).res = .ok s.2 := by
  induction networks with
  | nil =>
    intro results h s hs
    simp only [testNetworks, pure_res, Res.ok.injEq] at h
    subst h
    simp at hs
  | cons entry rest ih =>
    obtain ⟨key, network⟩ := entry
    intro results h s hs
    unfold testNetworks at h
    simp only [bind_eq, bind_res_ok, pure_res, Res.ok.injEq] at h
    obtain ⟨r, hr, rs, hrs, rfl⟩ := h
    rcases List.mem_cons.1 hs with rfl | hmem
    · exact hr
    · exact ih rs hrs s hmem

theorem lookup_of_mem_NETWORKS (entry : String × NetworkProfile) (h : entry ∈ NETWORKS) :
    NETWORKS.lookup entry.1 = some entry.2 := by
  simp only [NETWORKS, List.mem_cons, List.mem_singleton, List.not_mem_nil, or_false] at h
  rcases h with rfl | rfl <;> decide

theorem testNetwork_zero_balance (w : World) (networkKey : String) (network : NetworkProfile)
    (privateKey : Option String) (hnet : NETWORKS.lookup networkKey = some network)
    (hzero : ∀ address, (w.chain network.rpcUrl).getBalance address = .ok 0) :
    ∃ r, (testNetwork w networkKey privateKey).res = .ok r ∧ r.canDeploy = false := by
  unfold testNetwork
  simp only [hnet]
  cases h1 : (w.chain network.rpcUrl).getBlockNumber <;>
    cases h2 : truthy privateKey <;>
    cases h3 : w.newWallet (privateKey.getD "") <;>
    simp [h1, h2, h3, hzero, bind_eq, pure_eq, Eff.bind, Eff.call, Eff.lift, Eff.tryCatch,
      Eff.log, Eff.emit]

theorem not_deployStep_of_isProbe (ev : Event) (h : ev.isProbe = true) :
    ev.isDeployStep = false ∧ ev.isWrite = false := by
  cases ev <;> simp [Event.isProbe] at h <;> exact ⟨rfl, rfl⟩

/-- The run of `main` when the probes return `results` and none is
deployable: the no-network report, then `rl.close()`. -/
theorem main_of_no_deployable (w : World) (results : List (String × NetworkInfo))
    (hres : (testNetworks w (w.answer "Enter your private key (or press Enter to skip): ")
      NETWORKS).res = .ok results)
    (hnone : results.filter NetworkInfo.deployable = []) :
    (main w).res = .ok () ∧
    (main w).trace =
      Event.question "Enter your private key (or press Enter to skip): " ::
        ((testNetworks w (w.answer "Enter your private key (or press Enter to skip): ")
            NETWORKS).trace ++
          [Event.log "\n❌ No networks available for deployment", Event.rlClose]) := by
  unfold main mainTry
  simp [bind_eq, Eff.bind, askQuestion, hres, hnone, Eff.tryFinally, Eff.tryCatch, log, emit]

/-- C11. No eligible network: when the balance query returns zero on every
network of `NETWORKS`, then whatever the user types, every probe of `main`
returns `canDeploy = false`, the set of deployable networks is empty, the run
reports that no network is available and returns; no step of
`deployToNetwork` is performed and no record is written. -/
theorem main_no_eligible_network (w : World)
    (hzero : ∀ network ∈ NETWORKS.map Prod.snd, ∀ address,
      (w.chain network.rpcUrl).getBalance address = .ok 0) :
    (∃ results,
      (testNetworks w (w.answer "Enter your private key (or press Enter to skip): ")
        NETWORKS).res = .ok results ∧
      results.map Prod.fst = NETWORKS.map Prod.fst ∧
      results.filter NetworkInfo.deployable = []) ∧
    (main w).res = .ok () ∧
    Event.log "\n❌ No networks available for deployment" ∈ (main w).trace ∧
    (∀ ev ∈ (main w).trace, ev.isDeployStep = false ∧ ev.isWrite = false) ∧
    writes (main w).trace = 0 := by
  obtain ⟨results, hres, hkeys, hall⟩ := testNetworks_results w
    (w.answer "Enter your private key (or press Enter to skip): ")
    (fun _ r => r.canDeploy = false) NETWORKS (fun entry hentry =>
      testNetwork_zero_balance w entry.1 entry.2 _ (lookup_of_mem_NETWORKS entry hentry)
        (hzero entry.2 (List.mem_map_of_mem _ hentry)))
  have hnone : results.filter NetworkInfo.deployable = [] := by
    rw [List.filter_eq_nil_iff]
    intro s hs
    simp [NetworkInfo.deployable, hall s hs]
  obtain ⟨hmain, htrace⟩ := main_of_no_deployable w results hres hnone
  have hev : ∀ ev ∈ (main w).trace, ev.isDeployStep = false ∧ ev.isWrite = false := by
    intro ev hev
    rw [htrace] at hev
    simp only [List.mem_cons, List.mem_append, List.mem_singleton, List.not_mem_nil,
      or_false] at hev
    rcases hev with rfl | h | rfl | rfl
    · exact ⟨rfl, rfl⟩
    · exact not_deployStep_of_isProbe ev (testNetworks_traceAll_isProbe w _ _ ev h)
    · exact ⟨rfl, rfl⟩
    · exact ⟨rfl, rfl⟩
  refine ⟨⟨results, hres, hkeys, hnone⟩, hmain, ?_, hev, ?_⟩
  · rw [htrace]
    simp
  · unfold writes
    rw [List.countP_eq_zero]
    intro ev hmem
    simp [(hev ev hmem).2]

/-- Witness for C11: in `zeroBalanceWorld` every balance query returns zero. -/
theorem main_no_eligible_network_witness :
    (∃ results,
      (testNetworks zeroBalanceWorld
        (zeroBalanceWorld.answer "Enter your private key (or press Enter to skip): ")
        NETWORKS).res = .ok results ∧
      results.map Prod.fst = NETWORKS.map Prod.fst ∧
      results.filter NetworkInfo.deployable = []) ∧
    (main zeroBalanceWorld).res = .ok () ∧
    Event.log "\n❌ No networks available for deployment" ∈ (main zeroBalanceWorld).trace ∧
    (∀ ev ∈ (main zeroBalanceWorld).trace, ev.isDeployStep = false ∧ ev.isWrite = false) ∧
    writes (main zeroBalanceWorld).trace = 0 :=
  main_no_eligible_network zeroBalanceWorld (fun _ _ _ => rfl)

/-! ## An unreachable endpoint -/

/-- The run of `testNetwork` against an endpoint whose height query fails. -/
theorem testNetwork_of_height_failure (w : World) (networkKey : String)
    (network : NetworkProfile) (privateKey : Option String) (e : JsError)
    (hnet : NETWORKS.lookup networkKey = some network)
    (hfail : (w.chain network.rpcUrl).getBlockNumber = .error e) :
    testNetwork w networkKey privateKey =
      ⟨[.getBlockNumber network.rpcUrl, .log ("❌ Connection failed: " ++ e.message)],
        .ok { network := network, provider := none, wallet := none, canDeploy := false }⟩ := by
  unfold testNetwork
  simp [hnet, hfail, bind_eq, pure_eq, Eff.bind, Eff.call, Eff.tryCatch, Eff.log, Eff.emit]

theorem testNetwork_not_deployable_of_height_failure (w : World) (networkKey : String)
    (privateKey : Option String) (url : String) (e : JsError) (r : NetworkInfo)
    (hfail : (w.chain url).getBlockNumber = .error e)
    (hr : (testNetwork w networkKey privateKey).res = .ok r) (hurl : r.network.rpcUrl = url) :
    r.canDeploy = false := by
  have hnet := testNetwork_res_network w networkKey privateKey r hr
  rw [← hurl] at hfail
  rw [testNetwork_of_height_failure w networkKey r.network privateKey e hnet hfail] at hr
  simp only [Res.ok.injEq] at hr
  rw [← hr]

theorem testNetwork_traceAll_onlyHeightQueryOn (w : World) (networkKey : String)
    (privateKey : Option String) (url : String) (e : JsError)
    (hfail : (w.chain url).getBlockNumber = .error e) :
    TraceAll (Event.onlyHeightQueryOn url) (testNetwork w networkKey privateKey) := by
  cases hnet : NETWORKS.lookup networkKey with
  | none =>
    refine traceAll_of_trace_nil ?_
    unfold testNetwork
    simp [hnet, Eff.raise]
  | some network =>
    by_cases hurl : network.rpcUrl = url
    · rw [← hurl] at hfail
      rw [testNetwork_of_height_failure w networkKey network privateKey e hnet hfail]
      intro ev hev
      simp only [List.mem_cons, List.mem_singleton, List.not_mem_nil, or_false] at hev
      rcases hev with rfl | rfl <;> simp [Event.onlyHeightQueryOn, Event.rpcUrl]
    · unfold testNetwork
      simp only [hnet, bind_eq]
      repeat' with_reducible first
        | intro _
        | exact traceAll_log _ (by simp [Event.onlyHeightQueryOn, Event.rpcUrl])
        | exact traceAll_pure _
        | exact traceAll_lift _
        | exact traceAll_call _ _ (by simp [Event.onlyHeightQueryOn, Event.rpcUrl, hurl])
        | apply traceAll_ite
        | apply traceAll_tryCatch
        | apply traceAll_bind

theorem testNetworks_traceAll_onlyHeightQueryOn (w : World) (privateKey : String)
    (url : String) (e : JsError) (hfail : (w.chain url).getBlockNumber = .error e)
    (networks : List (String × NetworkProfile)) :
    TraceAll (Event.onlyHeightQueryOn url) (testNetworks w privateKey networks) := by
  induction networks with
  | nil => exact traceAll_of_trace_nil rfl
  | cons entry rest ih =>
    obtain ⟨key, network⟩ := entry
    unfold testNetworks
    simp only [bind_eq]
    refine traceAll_bind (testNetwork_traceAll_onlyHeightQueryOn _ _ _ url e hfail)
      (fun _ _ => ?_)
    refine traceAll_bind ih (fun _ _ => ?_)
    exact traceAll_pure _

theorem traceAll_logs {p : Event → Bool} (lines : List String)
    (h : ∀ line, p (.log line) = true) : TraceAll p (logs lines) := by
  intro ev hev
  rw [logs_trace, List.mem_map] at hev
  obtain ⟨line, -, rfl⟩ := hev
  exact h line

theorem traceAll_readFileSync {p : Event → Bool} (w : World) (path : String)
    (h : p (.readFile path) = true) : TraceAll p (readFileSync w path) := by
  intro ev hev
  rw [readFileSync_trace, List.mem_singleton] at hev
  rw [hev, h]

theorem traceAll_askQuestion {p : Event → Bool} (w : World) (prompt : String)
    (h : p (.question prompt) = true) : TraceAll p (askQuestion w prompt) := by
  intro ev hev
  rw [askQuestion_trace, List.mem_singleton] at hev
  rw [hev, h]

theorem deployToNetwork_traceAll_onlyHeightQueryOn (w : World) (info : NetworkInfo)
    (url : String) (hurl : info.network.rpcUrl ≠ url) :
    TraceAll (Event.onlyHeightQueryOn url) (deployToNetwork w info) := by
  unfold deployToNetwork deployToNetworkTry deployToNetworkCatch estimateGasStep
  simp only [bind_eq]
  repeat' with_reducible first
    | intro _
    | exact traceAll_log _ (by simp [Event.onlyHeightQueryOn, Event.rpcUrl])
    | exact traceAll_logs _ (by simp [Event.onlyHeightQueryOn, Event.rpcUrl])
    | exact traceAll_pure _
    | exact traceAll_lift _
    | exact traceAll_readFileSync _ _ (by simp [Event.onlyHeightQueryOn, Event.rpcUrl])
    | exact traceAll_call _ _ (by simp [Event.onlyHeightQueryOn, Event.rpcUrl, hurl])
    | apply traceAll_tryCatch
    | apply traceAll_bind

theorem deploySelected_traceAll_onlyHeightQueryOn (w : World)
    (selected : Option (String × NetworkInfo)) (url : String)
    (hurl : ∀ s, selected = some s → s.2.network.rpcUrl ≠ url) :
    TraceAll (Event.onlyHeightQueryOn url) (deploySelected w selected) := by
  cases selected with
  | none => exact traceAll_log _ (by simp [Event.onlyHeightQueryOn, Event.rpcUrl])
  | some s =>
    unfold deploySelected
    simp only [bind_eq]
    refine traceAll_bind (deployToNetwork_traceAll_onlyHeightQueryOn w s.2 url (hurl s rfl))
      (fun result _ => ?_)
    cases result with
    | succeeded a n =>
      exact traceAll_call _ _ (by simp [Event.onlyHeightQueryOn, Event.rpcUrl])
    | failed msg => exact traceAll_pure _

theorem main_traceAll_onlyHeightQueryOn (w : World) (url : String) (e : JsError)
    (hfail : (w.chain url).getBlockNumber = .error e) :
    TraceAll (Event.onlyHeightQueryOn url) (main w) := by
  unfold main mainTry
  simp only [bind_eq]
  refine traceAll_tryFinally (traceAll_tryCatch ?_ (fun _ => traceAll_log _ (by
    simp [Event.onlyHeightQueryOn, Event.rpcUrl]))) (by
    simp [Event.onlyHeightQueryOn, Event.rpcUrl])
  refine traceAll_bind (traceAll_askQuestion _ _ (by
    simp [Event.onlyHeightQueryOn, Event.rpcUrl])) (fun privateKey _ => ?_)
  refine traceAll_bind (testNetworks_traceAll_onlyHeightQueryOn w _ url e hfail _)
    (fun results hres => ?_)
  refine traceAll_ite (traceAll_log _ (by simp [Event.onlyHeightQueryOn, Event.rpcUrl])) ?_
  refine traceAll_bind (traceAll_askQuestion _ _ (by
    simp [Event.onlyHeightQueryOn, Event.rpcUrl])) (fun choice _ => ?_)
  refine deploySelected_traceAll_onlyHeightQueryOn w _ url (fun s hs hurl => ?_)
  have hmem := elementAt_mem _ _ _ hs
  have hdep : s.2.canDeploy = true := by
    simpa [NetworkInfo.deployable] using (List.mem_filter.1 hmem).2
  have hr := testNetworks_mem w privateKey NETWORKS results hres s (List.mem_of_mem_filter hmem)
  rw [testNetwork_not_deployable_of_height_failure w s.1 _ url e s.2 hfail hr hurl] at hdep
  exact absurd hdep (by simp)

theorem eq_getBlockNumber_of_onlyHeightQueryOn (url : String) (ev : Event)
    (h : ev.onlyHeightQueryOn url = true) (hurl : ev.rpcUrl = some url) :
    ev = .getBlockNumber url := by
  cases ev <;> simp_all [Event.onlyHeightQueryOn, Event.rpcUrl]

/-- C12. Unreachable endpoint: when the height query against a network of
`NETWORKS` fails, `testNetwork` returns `{ network, canDeploy: false }`; the
height query is the only RPC call it issues (no balance query is sent); the
network is not among the deployable networks that `main` offers for
selection; and in the whole run of `main` no RPC call other than height
queries is sent to that endpoint. -/
theorem testNetwork_unreachable_endpoint (w : World) (networkKey : String)
    (network : NetworkProfile) (privateKey : Option String) (e : JsError)
    (hnet : NETWORKS.lookup networkKey = some network)
    (hfail : (w.chain network.rpcUrl).getBlockNumber = .error e) :
    (testNetwork w networkKey privateKey).res =
      .ok { network := network, provider := none, wallet := none, canDeploy := false } ∧
    (testNetwork w networkKey privateKey).trace.filter Event.isRpc =
      [.getBlockNumber network.rpcUrl] ∧
    (∀ url address, Event.getBalance url address ∉ (testNetwork w networkKey privateKey).trace) ∧
    (∀ key results, (testNetworks w key NETWORKS).res = .ok results →
      ∀ s ∈ results.filter NetworkInfo.deployable,
        s.2.network.rpcUrl ≠ network.rpcUrl ∧ s.1 ≠ networkKey) ∧
    (∀ ev ∈ (main w).trace, ev.rpcUrl = some network.rpcUrl →
      ev = .getBlockNumber network.rpcUrl) := by
  have heq := testNetwork_of_height_failure w networkKey network privateKey e hnet hfail
  have hdeployable : ∀ key results, (testNetworks w key NETWORKS).res = .ok results →
      ∀ s ∈ results.filter NetworkInfo.deployable, s.2.network.rpcUrl ≠ network.rpcUrl := by
    intro key results hres s hs hurl
    have hdep : s.2.canDeploy = true := by
      simpa [NetworkInfo.deployable] using (List.mem_filter.1 hs).2
    have hr := testNetworks_mem w key NETWORKS results hres s (List.mem_of_mem_filter hs)
    rw [testNetwork_not_deployable_of_height_failure w s.1 _ _ e s.2 hfail hr hurl] at hdep
    exact absurd hdep (by simp)
  refine ⟨by rw [heq], by rw [heq]; rfl, ?_, ?_, ?_⟩
  · intro url address hmem
    rw [heq] at hmem
    simp at hmem
  · intro key results hres s hs
    refine ⟨hdeployable key results hres s hs, ?_⟩
    intro hkey
    have hr := testNetworks_mem w key NETWORKS results hres s (List.mem_of_mem_filter hs)
    have hlookup := testNetwork_res_network w s.1 _ s.2 hr
    rw [hkey, hnet] at hlookup
    simp only [Option.some.injEq] at hlookup
    exact hdeployable key results hres s hs (by rw [← hlookup])
  · intro ev hev hurl
    exact eq_getBlockNumber_of_onlyHeightQueryOn _ ev
      (main_traceAll_onlyHeightQueryOn w _ e hfail ev hev) hurl

/-- Witness for C12: the local endpoint of `unreachableWorld`. -/
theorem testNetwork_unreachable_endpoint_witness :
    (testNetwork unreachableWorld "local" (some "0xabc")).res =
      .ok { network := sampleInfo.network, provider := none, wallet := none,
            canDeploy := false } ∧
    (testNetwork unreachableWorld "local" (some "0xabc")).trace.filter Event.isRpc =
      [.getBlockNumber "http://127.0.0.1:8545"] :=
  have h := testNetwork_unreachable_endpoint unreachableWorld "local" sampleInfo.network
    (some "0xabc") ⟨"connect ECONNREFUSED", some "NETWORK_ERROR"⟩ (by decide) rfl
  ⟨h.1, h.2.1⟩

/-! ## The shape of the deployment record -/

theorem deployJs_record_of_write_mem (w : World) (path : String) (info : DeploymentInfo)
    (h : Event.writeFile path info ∈ (Deploy.deployContract w).trace) :
    ∃ address deployer,
      (w.chain Deploy.NETWORK_CONFIG.rpcUrl).getAddress = .ok address ∧
      w.newWallet (w.envPrivateKey.getD "") = .ok deployer ∧
      path = "deployment.json" ∧
      info = [("network", .str "Polkadot Hub Testnet"), ("chainId", .num 420420422),
        ("contractAddress", .str address), ("deployerAddress", .str deployer),
        ("deploymentTime", .str w.now)] := by
  unfold Deploy.deployContract at h
  simp only [bind_eq, mem_bind_trace, bind_res_ok, call_res_ok, call_trace, lift_res_ok,
    lift_trace, readFileSync_res_ok, readFileSync_trace, mem_tryCatch_trace, ite_res_eq,
    mem_ite_trace, pure_res, pure_trace, log_res, log_trace, exitWith_res, exitWith_trace,
    List.mem_singleton, List.not_mem_nil, reduceCtorEq, false_or, or_false, and_false,
    false_and, exists_false, exists_const, and_true, true_and, Event.writeFile.injEq] at h
  obtain ⟨-, wallet, hw, balance, -, -, -, abiText, -, abi_, -, bytes, -, output, -, abi, -, u1, -,
    tx, h5, u2, h6, address, h7, v1, h8, u3, h9, u4, h10, v2, h11, hpath, hinfo⟩ := h
  exact ⟨address, wallet, h7, hw, hpath, hinfo⟩

theorem deployLocal_record_of_write_mem (w : World) (path : String) (info : DeploymentInfo)
    (h : Event.writeFile path info ∈ (DeployLocal.deployContract w).trace) :
    ∃ address deployer bytecode txHash,
      (w.chain DeployLocal.NETWORK_CONFIG.rpcUrl).getAddress = .ok address ∧
      w.newWallet DeployLocal.testKey = .ok deployer ∧
      (w.chain DeployLocal.NETWORK_CONFIG.rpcUrl).deploy bytecode true = .ok txHash ∧
      path = "deployment-local.json" ∧
      info = [("network", .str "Local Development"), ("chainId", .num 1337),
        ("contractAddress", .str address), ("deployerAddress", .str deployer),
        ("deploymentTime", .str w.now), ("transactionHash", .str txHash)] := by
  unfold DeployLocal.deployContract DeployLocal.deployContractTry
    DeployLocal.deployContractCatch at h
  simp only [bind_eq, mem_bind_trace, bind_res_ok, call_res_ok, call_trace, lift_res_ok,
    lift_trace, readFileSync_res_ok, readFileSync_trace, mem_tryCatch_trace, tryCatch_res_ok,
    ite_res_eq,
    mem_ite_trace, pure_res, pure_trace, log_res, log_trace, logs_trace, logs_res,
    exitWith_res, exitWith_trace, List.mem_map,
    List.mem_singleton, List.not_mem_nil, reduceCtorEq, false_or, or_false, and_false,
    false_and, exists_false, exists_const, and_true, true_and, Event.writeFile.injEq] at h
  obtain ⟨wallet, hw, balanceRead, -, -, -, abiText, -, abi, -, bytes, -, u1, -, tx, h5, u2, h6,
    address, h7, v1, h8, u3, h9, u4, h10, v2, h11, hpath, hinfo⟩ := h
  exact ⟨address, wallet, bytecodeOf bytes, tx, h7, hw, h5, hpath, hinfo⟩

theorem deployInteractive_record_of_write_mem (w : World) (path : String)
    (info : DeploymentInfo)
    (h : Event.writeFile path info ∈ (DeployInteractive.deployContract w).trace) :
    ∃ address deployer bytecode txHash,
      (w.chain DeployInteractive.NETWORK_CONFIG.rpcUrl).getAddress = .ok address ∧
      w.newWallet (w.answer "Private Key: ") = .ok deployer ∧
      (w.chain DeployInteractive.NETWORK_CONFIG.rpcUrl).deploy bytecode
        (DeployInteractive.parseInitValue
          (w.answer "Enter initial boolean value (true/false) [default: true]: ")) =
        .ok txHash ∧
      path = "deployment.json" ∧
      info = [("network", .str "Polkadot Hub Testnet"), ("chainId", .num 420420422),
        ("contractAddress", .str address), ("deployerAddress", .str deployer),
        ("initialValue", .bool (DeployInteractive.parseInitValue
          (w.answer "Enter initial boolean value (true/false) [default: true]: "))),
        ("deploymentTime", .str w.now), ("transactionHash", .str txHash)] := by
  unfold DeployInteractive.deployContract at h
  have hno := not_write_mem_of_writesLe_zero (loadArtifact_writesLe w) path info
  simp only [bind_eq, mem_bind_trace, bind_res_ok, call_res_ok, call_trace, lift_res_ok,
    lift_trace, mem_tryCatch_trace, mem_tryFinally_trace, ite_res_eq,
    mem_ite_trace, pure_res, pure_trace, log_res, log_trace,
    exitWith_res, exitWith_trace, askQuestion_res, askQuestion_trace, hno,
    List.mem_singleton, List.not_mem_nil, reduceCtorEq, false_or, or_false, and_false,
    false_and, exists_false, exists_const, and_true, true_and, Res.ok.injEq, exists_eq_left',
    Event.writeFile.injEq] at h
  obtain ⟨-, wallet, hw, balance, -, -, artifact, -, -, u1, -, tx, h5, u2, h6, address, h7, v1, h8,
    reads, hflip, v3, h12, hpath, hinfo⟩ := h
  exact ⟨address, wallet, artifact.2, tx, h7, hw, h5, hpath, hinfo⟩

theorem deploySelected_record_of_write_mem (w : World)
    (selected : Option (String × NetworkInfo)) (path : String) (info : DeploymentInfo)
    (h : Event.writeFile path info ∈ (deploySelected w selected).trace) :
    ∃ s address name, selected = some s ∧
      (deployToNetwork w s.2).res = .ok (.succeeded address name) ∧
      path = "deployment-debug.json" ∧
      info = [("network", .str name), ("contractAddress", .str address),
        ("deploymentTime", .str w.now)] := by
  cases selected with
  | none => simp [deploySelected, log_trace] at h
  | some s =>
    unfold deploySelected at h
    simp only [bind_eq, mem_bind_trace] at h
    rcases h with h | ⟨r, hr, h⟩
    · exact absurd h (not_write_mem_of_writesLe_zero (deployToNetwork_writesLe w s.2) _ _)
    · cases r with
      | succeeded address name =>
        simp only [saveDeployment, call_trace, List.mem_singleton, Event.writeFile.injEq] at h
        exact ⟨s, address, name, rfl, hr, h.1, h.2⟩
      | failed msg => simp [saveDeployment, pure_trace] at h

theorem main_record_of_write_mem (w : World) (path : String) (info : DeploymentInfo)
    (h : Event.writeFile path info ∈ (main w).trace) :
    ∃ network ∈ NETWORKS.map Prod.snd, ∃ address,
      (w.chain network.rpcUrl).getAddress = .ok address ∧
      path = "deployment-debug.json" ∧
      info = [("network", .str network.name), ("contractAddress", .str address),
        ("deploymentTime", .str w.now)] := by
  unfold main mainTry at h
  have hno := fun pk => not_write_mem_of_writesLe_zero (testNetworks_writesLe w pk NETWORKS)
    path info
  simp only [bind_eq, mem_bind_trace, bind_res_ok, mem_tryFinally_trace, mem_tryCatch_trace,
    mem_ite_trace, askQuestion_res, askQuestion_trace, log_trace, hno,
    List.mem_singleton, List.not_mem_nil, reduceCtorEq, false_or, or_false, and_false,
    false_and, exists_false, exists_const, and_true, true_and, Res.ok.injEq, exists_eq_left']
    at h
  obtain ⟨results, hres, -, hsel⟩ := h
  obtain ⟨s, address, name, hs, hdeploy, hpath, hinfo⟩ :=
    deploySelected_record_of_write_mem w _ path info hsel
  have hmem := List.mem_of_mem_filter (elementAt_mem _ _ _ hs)
  obtain ⟨hname, haddr, -⟩ := (deployToNetwork_succeeded_iff w s.2 address name).1 hdeploy
  exact ⟨s.2.network, testNetworks_res_networks w _ NETWORKS results hres s hmem, address,
    haddr, hpath, by rw [hinfo, hname]⟩

/-- Counterexample to C13 as stated: the records written in `sampleWorld` by
`deploy.js` and by `deploy-debug.js`.  Neither has `constructorArgs` or
`transactionHash`, and the second has no `chainId` and no `deployerAddress`. -/
theorem records_without_constructorArgs :
    recordsOf (Deploy.deployContract sampleWorld).trace =
      [("deployment.json",
        [("network", .str "Polkadot Hub Testnet"), ("chainId", .num 420420422),
         ("contractAddress", .str "0xC0DE"), ("deployerAddress", .str "0xA11CE"),
         ("deploymentTime", .str "2025-01-01T00:00:00.000Z")])] ∧
    recordsOf (main sampleWorld).trace =
      [("deployment-debug.json",
        [("network", .str "Polkadot Hub Testnet"), ("contractAddress", .str "0xC0DE"),
         ("deploymentTime", .str "2025-01-01T00:00:00.000Z")])] ∧
    ((recordsOf (Deploy.deployContract sampleWorld).trace).all
      (fun record => (record.2.map Prod.fst).contains "constructorArgs")) = false ∧
    ((recordsOf (main sampleWorld).trace).all
      (fun record => (record.2.map Prod.fst).contains "chainId")) = false := by
  refine ⟨by decide, by decide, by decide, by decide⟩

/-- C13 (amended). The shape of every record written.  Each record holds
`network`, `contractAddress` and `deploymentTime`, and `contractAddress` is the
address returned by `contract.getAddress()`.  The records of `deploy.js`,
`deploy-local.js` and `deploy-interactive.js` also hold `chainId`, equal to
the chain id of the script's `NETWORK_CONFIG`, and `deployerAddress`; those of
`deploy-local.js` and `deploy-interactive.js` also `transactionHash`; that of
`deploy-interactive.js` also `initialValue`.  The record of `deploy-debug.js`
holds the three common fields only, and no record holds `constructorArgs`. -/
theorem record_fields_of_each_script (w : World) :
    (∀ path info, Event.writeFile path info ∈ (Deploy.deployContract w).trace →
      ∃ address deployer,
        (w.chain Deploy.NETWORK_CONFIG.rpcUrl).getAddress = .ok address ∧
        w.newWallet (w.envPrivateKey.getD "") = .ok deployer ∧
        path = "deployment.json" ∧
        info = [("network", .str Deploy.NETWORK_CONFIG.name),
          ("chainId", .num Deploy.NETWORK_CONFIG.chainId),
          ("contractAddress", .str address), ("deployerAddress", .str deployer),
          ("deploymentTime", .str w.now)]) ∧
    (∀ path info, Event.writeFile path info ∈ (DeployLocal.deployContract w).trace →
      ∃ address deployer bytecode txHash,
        (w.chain DeployLocal.NETWORK_CONFIG.rpcUrl).getAddress = .ok address ∧
        w.newWallet DeployLocal.testKey = .ok deployer ∧
        (w.chain DeployLocal.NETWORK_CONFIG.rpcUrl).deploy bytecode true = .ok txHash ∧
        path = "deployment-local.json" ∧
        info = [("network", .str DeployLocal.NETWORK_CONFIG.name),
          ("chainId", .num DeployLocal.NETWORK_CONFIG.chainId),
          ("contractAddress", .str address), ("deployerAddress", .str deployer),
          ("deploymentTime", .str w.now), ("transactionHash", .str txHash)]) ∧
    (∀ path info, Event.writeFile path info ∈ (DeployInteractive.deployContract w).trace →
      ∃ address deployer bytecode txHash,
        (w.chain DeployInteractive.NETWORK_CONFIG.rpcUrl).getAddress = .ok address ∧
        w.newWallet (w.answer "Private Key: ") = .ok deployer ∧
        (w.chain DeployInteractive.NETWORK_CONFIG.rpcUrl).deploy bytecode
          (DeployInteractive.parseInitValue
            (w.answer "Enter initial boolean value (true/false) [default: true]: ")) =
          .ok txHash ∧
        path = "deployment.json" ∧
        info = [("network", .str DeployInteractive.NETWORK_CONFIG.name),
          ("chainId", .num DeployInteractive.NETWORK_CONFIG.chainId),
          ("contractAddress", .str address), ("deployerAddress", .str deployer),
          ("initialValue", .bool (DeployInteractive.parseInitValue
            (w.answer "Enter initial boolean value (true/false) [default: true]: "))),
          ("deploymentTime", .str w.now), ("transactionHash", .str txHash)]) ∧
    (∀ path info, Event.writeFile path info ∈ (main w).trace →
      ∃ network ∈ NETWORKS.map Prod.snd, ∃ address,
        (w.chain network.rpcUrl).getAddress = .ok address ∧
        path = "deployment-debug.json" ∧
        info = [("network", .str network.name), ("contractAddress", .str address),
          ("deploymentTime", .str w.now)]) :=
  ⟨deployJs_record_of_write_mem w, deployLocal_record_of_write_mem w,
    deployInteractive_record_of_write_mem w, main_record_of_write_mem w⟩

/-- Witness for C13: the record that `deploy-local.js` writes in `sampleWorld`. -/
theorem record_fields_of_each_script_witness :
    Event.writeFile "deployment-local.json"
        [("network", .str "Local Development"), ("chainId", .num 1337),
         ("contractAddress", .str "0xC0DE"), ("deployerAddress", .str "0xA11CE"),
         ("deploymentTime", .str "2025-01-01T00:00:00.000Z"),
         ("transactionHash", .str "0xfeed")] ∈ (DeployLocal.deployContract sampleWorld).trace ∧
    ∃ address deployer bytecode txHash,
      (sampleWorld.chain DeployLocal.NETWORK_CONFIG.rpcUrl).getAddress = .ok address ∧
      sampleWorld.newWallet DeployLocal.testKey = .ok deployer ∧
      (sampleWorld.chain DeployLocal.NETWORK_CONFIG.rpcUrl).deploy bytecode true = .ok txHash ∧
      "deployment-local.json" = "deployment-local.json" ∧
      [("network", JsVal.str "Local Development"), ("chainId", .num 1337),
         ("contractAddress", .str "0xC0DE"), ("deployerAddress", .str "0xA11CE"),
         ("deploymentTime", .str "2025-01-01T00:00:00.000Z"),
         ("transactionHash", .str "0xfeed")] =
        [("network", .str DeployLocal.NETWORK_CONFIG.name),
          ("chainId", .num DeployLocal.NETWORK_CONFIG.chainId),
          ("contractAddress", .str address), ("deployerAddress", .str deployer),
          ("deploymentTime", .str sampleWorld.now), ("transactionHash", .str txHash)] :=
  have hmem : Event.writeFile "deployment-local.json"
      [("network", .str "Local Development"), ("chainId", .num 1337),
       ("contractAddress", .str "0xC0DE"), ("deployerAddress", .str "0xA11CE"),
       ("deploymentTime", .str "2025-01-01T00:00:00.000Z"),
       ("transactionHash", .str "0xfeed")] ∈ (DeployLocal.deployContract sampleWorld).trace := by
    repeat (first | exact List.Mem.head _ | apply List.Mem.tail)
  ⟨hmem, (record_fields_of_each_script sampleWorld).2.1 _ _ hmem⟩

/-! ## Exit status -/

theorem exitCodes_bind {α β : Type} {p : Nat → Prop} {x : Eff α} {f : α → Eff β}
    (hx : ExitCodes p x) (hf : ∀ a, x.res = .ok a → ExitCodes p (f a)) :
    ExitCodes p (Eff.bind x f) := by
  intro code h
  rcases (bind_res_exit x f code).1 h with h | ⟨a, ha, h⟩
  · exact hx code h
  · exact hf a ha code h

theorem exitCodes_tryCatch {α : Type} {p : Nat → Prop} {body : Eff α}
    {handler : JsError → Eff α} (hb : ExitCodes p body) (hh : ∀ e, ExitCodes p (handler e)) :
    ExitCodes p (Eff.tryCatch body handler) := by
  intro code h
  rcases (tryCatch_res_exit body handler code).1 h with h | ⟨e, -, h⟩
  · exact hb code h
  · exact hh e code h

theorem exitCodes_tryFinally {α : Type} {p : Nat → Prop} {body : Eff α} {fin : List Event}
    (hb : ExitCodes p body) : ExitCodes p (Eff.tryFinally body fin) := by
  intro code h
  rw [tryFinally_res] at h
  exact hb code h

theorem exitCodes_ite {α : Type} {p : Nat → Prop} {c : Prop} [Decidable c] {x y : Eff α}
    (hx : ExitCodes p x) (hy : ExitCodes p y) : ExitCodes p (if c then x else y) := by
  by_cases h : c <;> simp [h, hx, hy]

theorem exitCodes_of_res_ok {α : Type} {p : Nat → Prop} {x : Eff α} {a : α}
    (h : x.res = .ok a) : ExitCodes p x := by
  intro code hc
  rw [h] at hc
  exact absurd hc (by simp)

theorem exitCodes_call {α : Type} {p : Nat → Prop} (e : Event) (o : Outcome α) :
    ExitCodes p (call e o) := by
  intro code h
  exact absurd h (by simp [call_res_exit])

theorem exitCodes_lift {α : Type} {p : Nat → Prop} (o : Outcome α) :
    ExitCodes p (lift o) := by
  intro code h
  exact absurd h (by simp [lift_res_exit])

theorem exitCodes_readFileSync {p : Nat → Prop} (w : World) (path : String) :
    ExitCodes p (readFileSync w path) := by
  intro code h
  exact absurd h (by simp [readFileSync_res_exit])

theorem exitCodes_pure {α : Type} {p : Nat → Prop} (a : α) :
    ExitCodes p (pure a : Eff α) := exitCodes_of_res_ok rfl

theorem exitCodes_log {p : Nat → Prop} (line : String) : ExitCodes p (log line) :=
  exitCodes_of_res_ok rfl

theorem exitCodes_logs {p : Nat → Prop} (lines : List String) : ExitCodes p (logs lines) :=
  exitCodes_of_res_ok rfl

theorem exitCodes_askQuestion {p : Nat → Prop} (w : World) (prompt : String) :
    ExitCodes p (askQuestion w prompt) := exitCodes_of_res_ok rfl

theorem exitCodes_exitWith {α : Type} {p : Nat → Prop} (code : Nat) (h : p code) :
    ExitCodes p (exitWith code : Eff α) := by
  intro c hc
  simp only [exitWith_res, Res.exit.injEq] at hc
  rw [← hc]
  exact h

theorem testNetworks_exitCodes (w : World) (privateKey : String)
    (networks : List (String × NetworkProfile)) :
    ExitCodes (fun _ => False) (testNetworks w privateKey networks) := by
  induction networks with
  | nil => exact exitCodes_pure _
  | cons entry rest ih =>
    obtain ⟨key, network⟩ := entry
    unfold testNetworks
    simp only [bind_eq]
    refine exitCodes_bind ?_ (fun _ _ => exitCodes_bind ih (fun _ _ => exitCodes_pure _))
    unfold testNetwork
    split
    · exact fun code h => absurd h (by simp [Eff.raise])
    · simp only [bind_eq]
      repeat' with_reducible first
        | intro _
        | exact exitCodes_log _
        | exact exitCodes_pure _
        | exact exitCodes_lift _
        | exact exitCodes_call _ _
        | apply exitCodes_ite
        | apply exitCodes_tryCatch
        | apply exitCodes_bind

/-- The function `main` of `deploy-debug.js` always returns: it never calls
`process.exit` and its `catch` reports every raise. -/
theorem main_res (w : World) : (main w).res = .ok () := by
  have hexit : ExitCodes (fun _ => False) (main w) := by
    unfold main mainTry
    simp only [bind_eq]
    refine exitCodes_tryFinally (exitCodes_tryCatch ?_ (fun _ => exitCodes_log _))
    refine exitCodes_bind (exitCodes_askQuestion _ _) (fun _ _ => ?_)
    refine exitCodes_bind (testNetworks_exitCodes _ _ _) (fun _ _ => ?_)
    refine exitCodes_ite (exitCodes_log _) ?_
    refine exitCodes_bind (exitCodes_askQuestion _ _) (fun _ _ => ?_)
    intro code h
    generalize elementAt _ _ = selected at h
    cases selected with
    | none => simp [deploySelected, log_res] at h
    | some s =>
      unfold deploySelected at h
      simp only [bind_eq, bind_res_exit] at h
      rcases h with h | ⟨r, -, h⟩
      · exact deployToNetwork_res_ne_exit w s.2 code h
      · cases r <;> simp [saveDeployment, call_res_exit, pure_res] at h
  cases h : (main w).res with
  | ok u => rfl
  | throw e =>
    unfold main at h
    simp [tryFinally_res, tryCatch_res_throw, log_res] at h
  | exit c => exact absurd h (fun h => hexit c h)

theorem deployJs_res_cases (w : World) :
    (Deploy.deployContract w).res = .ok () ∨ (Deploy.deployContract w).res = .exit 1 := by
  have hexit : ExitCodes (fun c => c = 1) (Deploy.deployContract w) := by
    unfold Deploy.deployContract
    simp only [bind_eq]
    repeat' with_reducible first
      | intro _
      | exact exitCodes_log _
      | exact exitCodes_pure _
      | exact exitCodes_lift _
      | exact exitCodes_call _ _
      | exact exitCodes_readFileSync _ _
      | exact exitCodes_exitWith _ rfl
      | apply exitCodes_ite
      | apply exitCodes_tryCatch
      | apply exitCodes_bind
  cases h : (Deploy.deployContract w).res with
  | ok u => exact Or.inl rfl
  | throw e =>
    unfold Deploy.deployContract at h
    simp [bind_eq, tryCatch_res_throw, bind_res_throw, bind_res_ok, log_res, exitWith_res] at h
  | exit c => rw [hexit c h]; exact Or.inr rfl

theorem deployJs_of_res_ok (w : World) (h : (Deploy.deployContract w).res = .ok ()) :
    truthy w.envPrivateKey = true ∧
    (w.files abiPath).isSome = true ∧ (w.files bytecodePath).isSome = true ∧
    ∃ deployer balance, w.newWallet (w.envPrivateKey.getD "") = .ok deployer ∧
      (w.chain Deploy.NETWORK_CONFIG.rpcUrl).getBalance deployer = .ok balance ∧
      balance ≠ 0 := by
  unfold Deploy.deployContract at h
  simp only [bind_eq, bind_res_ok, call_res_ok, lift_res_ok, readFileSync_res_ok,
    tryCatch_res_ok, ite_res_eq, pure_res, log_res, exitWith_res,
    reduceCtorEq, false_or, or_false, and_false, false_and, exists_false, exists_const,
    and_true, true_and] at h
  obtain ⟨hkey, deployer, hw, balance, hb, hb0, hfiles, rest⟩ := h
  simp only [existsSync, Bool.not_eq_true, Bool.or_eq_false_iff, Bool.not_eq_false'] at hfiles
  simp only [Bool.not_eq_true, Bool.not_eq_false'] at hkey
  exact ⟨hkey, hfiles.1, hfiles.2, deployer, balance, hw, hb, hb0⟩

/-- The script `deploy.js` ends with `process.exit(1)` unless it succeeds. -/
theorem deployJs_exit_of_setup_failure (w : World) :
    (truthy w.envPrivateKey = false → (Deploy.deployContract w).res = .exit 1) ∧
    ((w.files abiPath = none ∨ w.files bytecodePath = none) →
      (Deploy.deployContract w).res = .exit 1) ∧
    ((∀ address, (w.chain Deploy.NETWORK_CONFIG.rpcUrl).getBalance address = .ok 0) →
      (Deploy.deployContract w).res = .exit 1) := by
  refine ⟨?_, ?_, ?_⟩
  · intro hkey
    rcases deployJs_res_cases w with h | h
    · have := (deployJs_of_res_ok w h).1
      rw [hkey] at this
      exact absurd this (by simp)
    · exact h
  · intro hfiles
    rcases deployJs_res_cases w with h | h
    · obtain ⟨-, h1, h2, -⟩ := deployJs_of_res_ok w h
      rcases hfiles with hf | hf
      · rw [hf] at h1
        exact absurd h1 (by simp)
      · rw [hf] at h2
        exact absurd h2 (by simp)
    · exact h
  · intro hzero
    rcases deployJs_res_cases w with h | h
    · obtain ⟨-, -, -, deployer, balance, -, hb, hb0⟩ := deployJs_of_res_ok w h
      rw [hzero deployer] at hb
      simp only [Except.ok.injEq] at hb
      exact absurd hb.symm hb0
    · exact h

theorem deployInteractive_exit_of_invalid_key (w : World)
    (hkey : (!truthy (some (w.answer "Private Key: ")) ||
      !startsWith (w.answer "Private Key: ") "0x") = true) :
    (DeployInteractive.deployContract w).res = .exit 1 := by
  unfold DeployInteractive.deployContract
  simp only [Bool.or_eq_true, Bool.not_eq_true'] at hkey
  simp [bind_eq, Eff.bind, askQuestion, hkey, Eff.tryFinally, Eff.tryCatch, log, emit, exitWith]

theorem deployInteractive_exit_of_declined_zero_balance (w : World) (deployer : String)
    (hkey : (!truthy (some (w.answer "Private Key: ")) ||
      !startsWith (w.answer "Private Key: ") "0x") = false)
    (hwallet : w.newWallet (w.answer "Private Key: ") = .ok deployer)
    (hbalance : (w.chain DeployInteractive.NETWORK_CONFIG.rpcUrl).getBalance deployer = .ok 0)
    (hproceed : toLowerCase (w.answer "Do you want to continue anyway? (y/N): ") ≠ "y") :
    (DeployInteractive.deployContract w).res = .exit 1 := by
  unfold DeployInteractive.deployContract
  simp only [Bool.or_eq_false_iff, Bool.not_eq_false'] at hkey
  simp [bind_eq, pure_eq, Eff.bind, askQuestion, hkey, hwallet, hbalance, hproceed,
    Eff.tryFinally, Eff.tryCatch, Eff.lift, Eff.call, log, emit, exitWith]

theorem deployInteractive_exit_of_loader_exit (w : World) (deployer : String) (balance : Int)
    (code : Nat)
    (hkey : (!truthy (some (w.answer "Private Key: ")) ||
      !startsWith (w.answer "Private Key: ") "0x") = false)
    (hwallet : w.newWallet (w.answer "Private Key: ") = .ok deployer)
    (hbalance :
      (w.chain DeployInteractive.NETWORK_CONFIG.rpcUrl).getBalance deployer = .ok balance)
    (hgate : balance ≠ 0 ∨
      toLowerCase (w.answer "Do you want to continue anyway? (y/N): ") = "y")
    (hload : (DeployInteractive.loadArtifact w).res = .exit code) :
    (DeployInteractive.deployContract w).res = .exit code := by
  unfold DeployInteractive.deployContract
  simp only [Bool.or_eq_false_iff, Bool.not_eq_false'] at hkey
  by_cases hb : balance = 0
  · have hy : toLowerCase (w.answer "Do you want to continue anyway? (y/N): ") = "y" := by
      rcases hgate with h | h
      · exact absurd hb h
      · exact h
    simp [bind_eq, pure_eq, Eff.bind, askQuestion, hkey, hwallet, hbalance, hb, hy, hload,
      Eff.tryFinally, Eff.tryCatch, Eff.lift, Eff.call, log, emit]
  · simp [bind_eq, pure_eq, Eff.bind, askQuestion, hkey, hwallet, hbalance, hb, hload,
      Eff.tryFinally, Eff.tryCatch, Eff.lift, Eff.call]

theorem loadArtifact_exit_of_missing_description (w : World)
    (habi : w.files abiPath = none) (hmeta : w.files metadataPath = none)
    (hlist : ∀ e, w.listDir ≠ some (.error e)) :
    (DeployInteractive.loadArtifact w).res = .exit 1 := by
  unfold DeployInteractive.loadArtifact DeployInteractive.loadAbi
    DeployInteractive.listArtifactDir
  cases hl : w.listDir with
  | none =>
    simp [existsSync, habi, hmeta, bind_eq, pure_eq, Eff.bind, log, emit, exitWith]
  | some listing =>
    cases listing with
    | error e => exact absurd hl (hlist e)
    | ok files =>
      simp [existsSync, habi, hmeta, bind_eq, pure_eq, Eff.bind, Eff.lift, log, emit,
        exitWith]

theorem loadArtifact_exit_of_missing_binary (w : World) (abi : JsonValue)
    (hbin : w.files bytecodePath = none)
    (habi : (DeployInteractive.loadAbi w).res = .ok abi) :
    (DeployInteractive.loadArtifact w).res = .exit 1 := by
  unfold DeployInteractive.loadArtifact DeployInteractive.loadBytecode
  simp [existsSync, hbin, habi, bind_eq, Eff.bind, log, emit, exitWith]

theorem deployInteractive_res_ne_throw (w : World) (e : JsError) :
    (DeployInteractive.deployContract w).res ≠ .throw e := by
  unfold DeployInteractive.deployContract
  simp only [ne_eq, tryFinally_res, bind_eq, tryCatch_res_throw, bind_res_throw, bind_res_ok,
    ite_res_eq, pure_res, log_res, reduceCtorEq, and_false, exists_false, or_false, false_or,
    not_false_eq_true, exists_const]

theorem testNetworks_traceAll_notExit (w : World) (privateKey : String)
    (networks : List (String × NetworkProfile)) :
    TraceAll Event.notExit (testNetworks w privateKey networks) := by
  intro ev hev
  have h := testNetworks_traceAll_isProbe w privateKey networks ev hev
  cases ev <;> simp_all [Event.isProbe, Event.notExit, Event.isExit]

theorem deployToNetwork_traceAll_notExit (w : World) (info : NetworkInfo) :
    TraceAll Event.notExit (deployToNetwork w info) := by
  unfold deployToNetwork deployToNetworkTry deployToNetworkCatch estimateGasStep
  simp only [bind_eq]
  repeat' with_reducible first
    | intro _
    | exact traceAll_log _ (by simp [Event.notExit, Event.isExit])
    | exact traceAll_logs _ (by simp [Event.notExit, Event.isExit])
    | exact traceAll_pure _
    | exact traceAll_lift _
    | exact traceAll_readFileSync _ _ (by simp [Event.notExit, Event.isExit])
    | exact traceAll_call _ _ (by simp [Event.notExit, Event.isExit])
    | apply traceAll_tryCatch
    | apply traceAll_bind

/-- No run of `main` (`deploy-debug.js`) calls `process.exit`. -/
theorem main_traceAll_notExit (w : World) : TraceAll Event.notExit (main w) := by
  unfold main mainTry
  simp only [bind_eq]
  refine traceAll_tryFinally (traceAll_tryCatch ?_ (fun _ => traceAll_log _ (by
    simp [Event.notExit, Event.isExit]))) (by simp [Event.notExit, Event.isExit])
  refine traceAll_bind (traceAll_askQuestion _ _ (by
    simp [Event.notExit, Event.isExit])) (fun privateKey _ => ?_)
  refine traceAll_bind (testNetworks_traceAll_notExit w _ _) (fun results _ => ?_)
  refine traceAll_ite (traceAll_log _ (by simp [Event.notExit, Event.isExit])) ?_
  refine traceAll_bind (traceAll_askQuestion _ _ (by
    simp [Event.notExit, Event.isExit])) (fun choice _ => ?_)
  generalize elementAt _ _ = selected
  cases selected with
  | none => exact traceAll_log _ (by simp [Event.notExit, Event.isExit])
  | some s =>
    unfold deploySelected
    simp only [bind_eq]
    refine traceAll_bind (deployToNetwork_traceAll_notExit w s.2) (fun result _ => ?_)
    cases result with
    | succeeded a n => exact traceAll_call _ _ (by simp [Event.notExit, Event.isExit])
    | failed msg => exact traceAll_pure _

/-- No run of `deploy-local.js` calls `process.exit`. -/
theorem deployLocal_traceAll_notExit (w : World) :
    TraceAll Event.notExit (DeployLocal.deployContract w) := by
  unfold DeployLocal.deployContract DeployLocal.deployContractTry
    DeployLocal.deployContractCatch
  simp only [bind_eq]
  repeat' with_reducible first
    | intro _
    | exact traceAll_log _ (by simp [Event.notExit, Event.isExit])
    | exact traceAll_logs _ (by simp [Event.notExit, Event.isExit])
    | exact traceAll_pure _
    | exact traceAll_lift _
    | exact traceAll_readFileSync _ _ (by simp [Event.notExit, Event.isExit])
    | exact traceAll_call _ _ (by simp [Event.notExit, Event.isExit])
    | apply traceAll_ite
    | apply traceAll_tryCatch
    | apply traceAll_bind

/-- Counterexample to C14 as stated: with no signing key `deploy-debug.js`
finds no deployable network, reports it and returns; with a missing binary
`deploy-local.js` and `deploy-debug.js` report and return.  In each of these
runs the entry function returns normally and `process.exit` is never called,
so the script does not end the process with a non-zero status. -/
theorem debug_and_local_return_without_exit :
    truthy (some (noKeyWorld.answer "Enter your private key (or press Enter to skip): "))
      = false ∧
    ((main noKeyWorld).trace.any
      (fun ev => match ev with
        | .log line => line == "\n❌ No networks available for deployment"
        | _ => false)) = true ∧
    (main noKeyWorld).res = .ok () ∧
    ((main noKeyWorld).trace.any Event.isExit) = false ∧
    missingBinaryWorld.files bytecodePath = none ∧
    (DeployLocal.deployContract missingBinaryWorld).res = .ok () ∧
    ((DeployLocal.deployContract missingBinaryWorld).trace.any Event.isExit) = false ∧
    (main missingBinaryWorld).res = .ok () ∧
    ((main missingBinaryWorld).trace.any Event.isExit) = false := by
  refine ⟨by decide, by decide, rfl, by decide, rfl, rfl, by decide, rfl, by decide⟩

/-- C14 (amended). Calls of `process.exit` on setup failure.  `deploy.js`
ends with `process.exit(1)` when `PRIVATE_KEY` is unset or empty, when an
artifact file is missing and when the balance query returns zero.
`deploy-interactive.js` ends with `process.exit(1)` when the key typed is
empty or does not start with `0x`; and, once the key has passed that test,
the wallet is built and the balance query has answered: when the balance is
zero and the user does not answer `y`; and, the balance being non-zero or the
user having answered `y`, when neither the ABI file nor the metadata file
exists and the directory listing does not raise, and when the binary is
missing while the description loads.  `deploy-debug.js` and `deploy-local.js`
never call `process.exit`: in every run, these situations included, the entry
function reports and returns normally, so these scripts never end the process
with a non-zero status (when the process then ends is left to the runtime and
is not stated here). -/
theorem exit_status_on_setup_failure (w : World) :
    ((truthy w.envPrivateKey = false ∨ w.files abiPath = none ∨ w.files bytecodePath = none ∨
        (∀ address, (w.chain Deploy.NETWORK_CONFIG.rpcUrl).getBalance address = .ok 0)) →
      (Deploy.deployContract w).res = .exit 1) ∧
    ((!truthy (some (w.answer "Private Key: ")) ||
        !startsWith (w.answer "Private Key: ") "0x") = true →
      (DeployInteractive.deployContract w).res = .exit 1) ∧
    (∀ deployer balance,
      (!truthy (some (w.answer "Private Key: ")) ||
        !startsWith (w.answer "Private Key: ") "0x") = false →
      w.newWallet (w.answer "Private Key: ") = .ok deployer →
      (w.chain DeployInteractive.NETWORK_CONFIG.rpcUrl).getBalance deployer = .ok balance →
      ((balance = 0 ∧
          toLowerCase (w.answer "Do you want to continue anyway? (y/N): ") ≠ "y") →
        (DeployInteractive.deployContract w).res = .exit 1) ∧
      ((balance ≠ 0 ∨
          toLowerCase (w.answer "Do you want to continue anyway? (y/N): ") = "y") →
        ((w.files abiPath = none ∧ w.files metadataPath = none ∧
            ∀ e, w.listDir ≠ some (.error e)) ∨
          (w.files bytecodePath = none ∧
            ∃ abi, (DeployInteractive.loadAbi w).res = .ok abi)) →
        (DeployInteractive.deployContract w).res = .exit 1)) ∧
    ((main w).res = .ok () ∧ ∀ ev ∈ (main w).trace, ev.isExit = false) ∧
    ((DeployLocal.deployContract w).res = .ok () ∧
      ∀ ev ∈ (DeployLocal.deployContract w).trace, ev.isExit = false) := by
  refine ⟨?_, deployInteractive_exit_of_invalid_key w, ?_, ?_, ?_⟩
  · obtain ⟨h1, h2, h3⟩ := deployJs_exit_of_setup_failure w
    rintro (h | h | h | h)
    · exact h1 h
    · exact h2 (Or.inl h)
    · exact h2 (Or.inr h)
    · exact h3 h
  · intro deployer balance hkey hwallet hbalance
    refine ⟨?_, ?_⟩
    · rintro ⟨hb, hproceed⟩
      rw [hb] at hbalance
      exact deployInteractive_exit_of_declined_zero_balance w deployer hkey hwallet hbalance
        hproceed
    · intro hgate hmissing
      refine deployInteractive_exit_of_loader_exit w deployer balance 1 hkey hwallet hbalance
        hgate ?_
      rcases hmissing with ⟨habi, hmeta, hlist⟩ | ⟨hbin, abi, habi⟩
      · exact loadArtifact_exit_of_missing_description w habi hmeta hlist
      · exact loadArtifact_exit_of_missing_binary w abi hbin habi
  · refine ⟨main_res w, fun ev hev => ?_⟩
    simpa [Event.notExit] using main_traceAll_notExit w ev hev
  · refine ⟨deployLocal_res w, fun ev hev => ?_⟩
    simpa [Event.notExit] using deployLocal_traceAll_notExit w ev hev

/-- Witness for C14: `deploy.js` and `deploy-interactive.js` without a key. -/
theorem exit_status_on_setup_failure_witness :
    truthy noKeyWorld.envPrivateKey = false ∧
    (Deploy.deployContract noKeyWorld).res = .exit 1 ∧
    (DeployInteractive.deployContract noKeyWorld).res = .exit 1 :=
  have h := exit_status_on_setup_failure noKeyWorld
  ⟨rfl, h.1 (Or.inl rfl), h.2.1 (by decide)⟩

/-! ## Selecting the network -/

theorem elementAt_eq_some_iff {α : Type} (array : List α) (i : Int) (a : α) :
    elementAt array (some i) = some a ↔
      0 ≤ i ∧ i < array.length ∧ array.get? i.toNat = some a := by
  unfold elementAt
  by_cases h : 0 ≤ i
  · simp only [h, if_true, true_and]
    constructor
    · intro hget
      refine ⟨?_, hget⟩
      obtain ⟨hlt, -⟩ := List.get?_eq_some.1 hget
      omega
    · exact fun hget => hget.2
  · simp [h]

theorem elementAt_eq_none_iff {α : Type} (array : List α) (i : Int) :
    elementAt array (some i) = none ↔ i < 0 ∨ (array.length : Int) ≤ i := by
  unfold elementAt
  by_cases h : 0 ≤ i
  · simp only [h, if_true, List.get?_eq_none]
    omega
  · simp only [h, if_false, true_iff]
    omega

theorem selection_eq_some_iff {α : Type} (array : List α) (answer : String) (a : α) :
    elementAt array ((parseInt answer).map (· - 1)) = some a ↔
      ∃ k, parseInt answer = some k ∧ 1 ≤ k ∧ k ≤ array.length ∧
        array.get? (k - 1).toNat = some a := by
  cases hk : parseInt answer with
  | none => simp [elementAt]
  | some k =>
    simp only [Option.map_some', elementAt_eq_some_iff, Option.some.injEq, exists_eq_left']
    constructor
    · rintro ⟨h1, h2, h3⟩
      exact ⟨by omega, by omega, h3⟩
    · rintro ⟨h1, h2, h3⟩
      exact ⟨by omega, by omega, h3⟩

theorem selection_eq_none_iff {α : Type} (array : List α) (answer : String) :
    elementAt array ((parseInt answer).map (· - 1)) = none ↔
      (parseInt answer = none ∨
        ∃ k, parseInt answer = some k ∧ (k ≤ 0 ∨ (array.length : Int) < k)) := by
  cases hk : parseInt answer with
  | none => simp [elementAt]
  | some k =>
    simp only [Option.map_some', elementAt_eq_none_iff, Option.some.injEq, exists_eq_left',
      reduceCtorEq, false_or]
    omega

theorem selection_isSome_iff {α : Type} (array : List α) (answer : String) :
    (elementAt array ((parseInt answer).map (· - 1))).isSome = true ↔
      ∃ k, parseInt answer = some k ∧ 1 ≤ k ∧ k ≤ (array.length : Int) := by
  rw [← Option.ne_none_iff_isSome, ne_eq, selection_eq_none_iff]
  cases hk : parseInt answer with
  | none => simp
  | some k =>
    simp only [reduceCtorEq, Option.some.injEq, exists_eq_left', false_or]
    omega

theorem testNetworks_keys (w : World) (privateKey : String)
    (networks : List (String × NetworkProfile)) :
    ∀ results, (testNetworks w privateKey networks).res = .ok results →
      results.map Prod.fst = networks.map Prod.fst := by
  induction networks with
  | nil =>
    intro results h
    simp only [testNetworks, pure_res, Res.ok.injEq] at h
    subst h
    rfl
  | cons entry rest ih =>
    obtain ⟨key, network⟩ := entry
    intro results h
    unfold testNetworks at h
    simp only [bind_eq, bind_res_ok, pure_res, Res.ok.injEq] at h
    obtain ⟨r, hr, rs, hrs, rfl⟩ := h
    simp [ih rs hrs]

theorem deployToNetwork_traceAll_targets (w : World) (info : NetworkInfo) :
    TraceAll (Event.targets info.network.rpcUrl) (deployToNetwork w info) := by
  unfold deployToNetwork deployToNetworkTry deployToNetworkCatch estimateGasStep
  simp only [bind_eq]
  repeat' with_reducible first
    | intro _
    | exact traceAll_log _ (by simp [Event.targets, Event.rpcUrl])
    | exact traceAll_logs _ (by simp [Event.targets, Event.rpcUrl])
    | exact traceAll_pure _
    | exact traceAll_lift _
    | exact traceAll_readFileSync _ _ (by simp [Event.targets, Event.rpcUrl])
    | exact traceAll_call _ _ (by simp [Event.targets, Event.rpcUrl])
    | apply traceAll_tryCatch
    | apply traceAll_bind

theorem deploySelected_some (w : World) (s : String × NetworkInfo) :
    deploySelected w (some s) = Eff.bind (deployToNetwork w s.2) (saveDeployment w) ∧
    Event.readFile abiPath ∈ (deploySelected w (some s)).trace ∧
    TraceAll (Event.targets s.2.network.rpcUrl) (deploySelected w (some s)) := by
  refine ⟨rfl, ?_, ?_⟩
  · unfold deploySelected deployToNetwork deployToNetworkTry
    simp only [bind_eq, mem_bind_trace, mem_tryCatch_trace, readFileSync_trace,
      List.mem_singleton, true_or]
  · unfold deploySelected
    simp only [bind_eq]
    refine traceAll_bind (deployToNetwork_traceAll_targets w s.2) (fun result _ => ?_)
    cases result with
    | succeeded a n => exact traceAll_call _ _ (by simp [Event.targets, Event.rpcUrl])
    | failed msg => exact traceAll_pure _

theorem deploySelected_none (w : World) :
    deploySelected w none = ⟨[.log "❌ Invalid selection"], .ok ()⟩ := rfl

/-- The run of `main` once the probes returned `results` with at least one
deployable network: the selection prompt, the selected deployment (or the
invalid-selection report), then only reporting and `rl.close()`. -/
theorem main_trace_of_deployable (w : World) (results : List (String × NetworkInfo))
    (hres : (testNetworks w (w.answer "Enter your private key (or press Enter to skip): ")
      NETWORKS).res = .ok results)
    (hsome : results.filter NetworkInfo.deployable ≠ []) :
    ∃ post, (∀ ev ∈ post, ev.isDeployStep = false ∧ ev.isWrite = false) ∧
      (main w).trace =
        Event.question "Enter your private key (or press Enter to skip): " ::
          ((testNetworks w (w.answer "Enter your private key (or press Enter to skip): ")
              NETWORKS).trace ++
            Event.question (selectPrompt (results.filter NetworkInfo.deployable).length) ::
              ((deploySelected w
                  (elementAt (results.filter NetworkInfo.deployable)
                    ((parseInt (w.answer
                      (selectPrompt (results.filter NetworkInfo.deployable).length))).map
                        (· - 1)))).trace ++ post)) := by
  have hlen : (results.filter NetworkInfo.deployable).length ≠ 0 := by
    simpa [List.length_eq_zero] using hsome
  unfold main mainTry selectPrompt
  generalize hsel : deploySelected w _ = run
  cases hrun : run.res with
  | ok u =>
    refine ⟨[.rlClose], by simp [Event.isDeployStep, Event.isWrite], ?_⟩
    simp [bind_eq, Eff.bind, askQuestion, hres, hlen, hsel, hrun, Eff.tryFinally, Eff.tryCatch]
  | throw e =>
    refine ⟨[.log ("❌ Error: " ++ e.message), .rlClose],
      by simp [Event.isDeployStep, Event.isWrite], ?_⟩
    simp [bind_eq, Eff.bind, askQuestion, hres, hlen, hsel, hrun, Eff.tryFinally, Eff.tryCatch,
      log, emit]
  | exit c =>
    refine ⟨[], by simp, ?_⟩
    simp [bind_eq, Eff.bind, askQuestion, hres, hlen, hsel, hrun, Eff.tryFinally, Eff.tryCatch]

/-- C15. Network selection in `main` of `deploy-debug.js`.  For every answer
and every list of `n ≥ 1` deployable networks, with `k = parseInt(answer)`: a
network is selected exactly when `1 ≤ k ≤ n`; it is then the `k`-th of the
list, `deployToNetwork` is run on it and every RPC call of the rest of the run
goes to its endpoint.  When `k` is `NaN`, `k ≤ 0` or `k > n`, the run logs
the invalid selection and does nothing else.  In a run of `main` the list is
the filtered probe results, in the order of `NETWORKS`, and apart from the
selected deployment the run performs no deployment step and writes nothing. -/
theorem debug_network_selection (w : World) (deployable : List (String × NetworkInfo))
    (answer : String) (hn : 1 ≤ deployable.length) :
    ((elementAt deployable ((parseInt answer).map (· - 1))).isSome = true ↔
      ∃ k, parseInt answer = some k ∧ 1 ≤ k ∧ k ≤ (deployable.length : Int)) ∧
    (∀ k, parseInt answer = some k → 1 ≤ k → k ≤ (deployable.length : Int) →
      ∃ s, deployable.get? (k - 1).toNat = some s ∧
        elementAt deployable ((parseInt answer).map (· - 1)) = some s ∧
        deploySelected w (elementAt deployable ((parseInt answer).map (· - 1))) =
          Eff.bind (deployToNetwork w s.2) (saveDeployment w) ∧
        Event.readFile abiPath ∈
          (deploySelected w (elementAt deployable ((parseInt answer).map (· - 1)))).trace ∧
        TraceAll (Event.targets s.2.network.rpcUrl)
          (deploySelected w (elementAt deployable ((parseInt answer).map (· - 1))))) ∧
    ((parseInt answer = none ∨
        ∃ k, parseInt answer = some k ∧ (k ≤ 0 ∨ (deployable.length : Int) < k)) →
      deploySelected w (elementAt deployable ((parseInt answer).map (· - 1))) =
        ⟨[.log "❌ Invalid selection"], .ok ()⟩) ∧
    (∀ results,
      (testNetworks w (w.answer "Enter your private key (or press Enter to skip): ")
        NETWORKS).res = .ok results →
      results.filter NetworkInfo.deployable = deployable →
      w.answer (selectPrompt deployable.length) = answer →
      List.Sublist (deployable.map Prod.fst) (NETWORKS.map Prod.fst) ∧
      ∃ post, (∀ ev ∈ post, ev.isDeployStep = false ∧ ev.isWrite = false) ∧
        (main w).trace =
          Event.question "Enter your private key (or press Enter to skip): " ::
            ((testNetworks w (w.answer "Enter your private key (or press Enter to skip): ")
                NETWORKS).trace ++
              Event.question (selectPrompt deployable.length) ::
                ((deploySelected w
                    (elementAt deployable ((parseInt answer).map (· - 1)))).trace ++
                  post))) := by
  refine ⟨selection_isSome_iff deployable answer, ?_, ?_, ?_⟩
  · intro k hk h1 h2
    have hlt : (k - 1).toNat < deployable.length := by omega
    have hget : deployable.get? (k - 1).toNat = some (deployable.get ⟨(k - 1).toNat, hlt⟩) :=
      List.get?_eq_get hlt
    have hsel : elementAt deployable ((parseInt answer).map (· - 1)) =
        some (deployable.get ⟨(k - 1).toNat, hlt⟩) :=
      (selection_eq_some_iff deployable answer _).2 ⟨k, hk, h1, h2, hget⟩
    rw [hsel]
    obtain ⟨e1, e2, e3⟩ := deploySelected_some w (deployable.get ⟨(k - 1).toNat, hlt⟩)
    exact ⟨_, hget, rfl, e1, e2, e3⟩
  · intro hbad
    rw [(selection_eq_none_iff deployable answer).2 hbad]
    rfl
  · intro results hres hfilter hanswer
    subst hfilter
    subst hanswer
    refine ⟨?_, ?_⟩
    · rw [← testNetworks_keys w _ NETWORKS results hres]
      exact (List.filter_sublist results).map Prod.fst
    · refine main_trace_of_deployable w results hres ?_
      intro hnil
      rw [hnil] at hn
      simp at hn

/-- Witness for C15: in `sampleWorld` both networks are deployable and the
answer `1` selects the first of them. -/
theorem debug_network_selection_witness :
    ∃ s, sampleDeployable.get? ((1 : Int) - 1).toNat = some s ∧
      elementAt sampleDeployable ((parseInt "1").map (· - 1)) = some s ∧
      deploySelected sampleWorld (elementAt sampleDeployable ((parseInt "1").map (· - 1))) =
        Eff.bind (deployToNetwork sampleWorld s.2) (saveDeployment sampleWorld) ∧
      Event.readFile abiPath ∈
        (deploySelected sampleWorld
          (elementAt sampleDeployable ((parseInt "1").map (· - 1)))).trace ∧
      TraceAll (Event.targets s.2.network.rpcUrl)
        (deploySelected sampleWorld
          (elementAt sampleDeployable ((parseInt "1").map (· - 1)))) :=
  (debug_network_selection sampleWorld sampleDeployable "1" (by decide)).2.1 1 (by decide)
    (by decide) (by decide)

/-! ## The constructor argument of `deploy-interactive.js` -/

theorem deployInteractive_arg_of_deploy_mem (w : World)
    (url bytecode : String) (arg : Bool) (gas : Option Nat)
    (h : Event.deploy url bytecode arg gas ∈ (DeployInteractive.deployContract w).trace) :
    arg = DeployInteractive.parseInitValue
      (w.answer "Enter initial boolean value (true/false) [default: true]: ") := by
  unfold DeployInteractive.deployContract at h
  simp only [bind_eq, mem_bind_trace, bind_res_ok, call_res_ok, call_trace, lift_res_ok,
    lift_trace, mem_tryCatch_trace, mem_tryFinally_trace, ite_res_eq,
    mem_ite_trace, pure_res, pure_trace, log_res, log_trace,
    exitWith_res, exitWith_trace, askQuestion_res, askQuestion_trace,
    deploy_not_mem_loadArtifact,
    List.mem_singleton, List.not_mem_nil, reduceCtorEq, false_or, or_false, and_false,
    false_and, exists_false, exists_const, and_true, true_and, Res.ok.injEq, exists_eq_left',
    Event.deploy.injEq] at h
  obtain ⟨-, -, -, -, -, -, artifact, hart, -, -, -, -, hbc, harg, -⟩ := h
  exact harg

/-- C16. Constructor argument of `deploy-interactive.js`: for every answer
the initial value is `false` exactly when the lower-cased answer is `false`,
and `true` for every other answer (the empty answer, `true`, and `false`
with surrounding blanks included); in every run that value is the argument of
the deployment that is submitted and the `initialValue` field of the record
that is written. -/
theorem interactive_initial_value (w : World) (answer : String) :
    (DeployInteractive.parseInitValue answer = false ↔ toLowerCase answer = "false") ∧
    (toLowerCase answer ≠ "false" → DeployInteractive.parseInitValue answer = true) ∧
    (DeployInteractive.parseInitValue "" = true ∧
      DeployInteractive.parseInitValue "true" = true ∧
      DeployInteractive.parseInitValue " false " = true ∧
      DeployInteractive.parseInitValue "false" = false ∧
      DeployInteractive.parseInitValue "FALSE" = false) ∧
    (∀ url bytecode arg gas,
      Event.deploy url bytecode arg gas ∈ (DeployInteractive.deployContract w).trace →
      arg = DeployInteractive.parseInitValue
        (w.answer "Enter initial boolean value (true/false) [default: true]: ")) ∧
    (∀ path info,
      Event.writeFile path info ∈ (DeployInteractive.deployContract w).trace →
      info.lookup "initialValue" = some (.bool (DeployInteractive.parseInitValue
        (w.answer "Enter initial boolean value (true/false) [default: true]: ")))) := by
  refine ⟨?_, ?_, by decide, deployInteractive_arg_of_deploy_mem w, ?_⟩
  · unfold DeployInteractive.parseInitValue
    by_cases h : toLowerCase answer = "false" <;> simp [h]
  · intro h
    unfold DeployInteractive.parseInitValue
    simp [h]
  · intro path info hmem
    obtain ⟨address, deployer, bytecode, txHash, -, -, -, -, hinfo⟩ :=
      deployInteractive_record_of_write_mem w path info hmem
    rw [hinfo]
    rfl

/-- Witness for C16: in `falseAnswerWorld` the user types `False`; the
deployment is submitted with `false`. -/
theorem interactive_initial_value_witness :
    Event.deploy "https://testnet-passet-hub-eth-rpc.polkadot.io" "0x50564d" false none ∈
      (DeployInteractive.deployContract falseAnswerWorld).trace ∧
    false = DeployInteractive.parseInitValue
      (falseAnswerWorld.answer "Enter initial boolean value (true/false) [default: true]: ") :=
  have hmem : Event.deploy "https://testnet-passet-hub-eth-rpc.polkadot.io" "0x50564d" false
      none ∈ (DeployInteractive.deployContract falseAnswerWorld).trace := by
    repeat (first | exact List.Mem.head _ | apply List.Mem.tail)
  ⟨hmem, (interactive_initial_value falseAnswerWorld "False").2.2.2.1 _ _ _ _ hmem⟩

end Ink
